import Mathlib

/-!
Verification of the ssh-mcp-server session/safety core against its
natural-language specification.  The TypeScript source is shallowly embedded:
classes become structures holding their mutable fields, methods become pure
functions threading that state, wall-clock time is an explicit `Nat`
(milliseconds), and external effects (randomness, the network) are explicit
parameters.  `Map` objects are embedded as association lists with JS `Map`
semantics (`set` replaces in place or appends, preserving insertion order).
-/

namespace SshMcp

/-- JS `Map.set`: replace the binding in place if the key exists, else append. -/
def mapSet {α : Type} (m : List (String × α)) (k : String) (v : α) : List (String × α) :=
  match m with
  | [] => [(k, v)]
  | (k0, v0) :: rest => if k0 = k then (k, v) :: rest else (k0, v0) :: mapSet rest k v

/-- JS `Map.get`: first binding of the key, if any. -/
def mapGet {α : Type} (m : List (String × α)) (k : String) : Option α :=
  match m with
  | [] => none
  | (k0, v0) :: rest => if k0 = k then some v0 else mapGet rest k

/-- JS `Map.delete`: remove the binding of the key (keys are unique in a JS Map). -/
def mapDelete {α : Type} (m : List (String × α)) (k : String) : List (String × α) :=
  match m with
  | [] => []
  | (k0, v0) :: rest => if k0 = k then rest else (k0, v0) :: mapDelete rest k

/-- Keys of an association-list map. -/
def mapKeys {α : Type} (m : List (String × α)) : List String :=
  m.map Prod.fst

/-! ## ConfirmationManager (src/utils/confirmation-manager.ts)

Parameters of a tool call are embedded as a flat list of string key/value
pairs (the JS params object; keys unique).  `hashParams` in the source is
sha256 of `JSON.stringify` of the canonicalized object (token fields removed,
keys sorted); sha256 composed with the canonical serialization is injective
for all practical purposes, so the embedding takes the canonical sorted field
list itself as the "hash": two hashes are equal exactly when the canonical
forms are equal. -/

/-- Lexicographic strict order on character lists by code point — the order
of JS `Array.prototype.sort` on the (ASCII) key strings involved. -/
def charsLt : List Char → List Char → Bool
  | [], [] => false
  | [], _ :: _ => true
  | _ :: _, [] => false
  | a :: as, b :: bs =>
    if a.toNat < b.toNat then true
    else if b.toNat < a.toNat then false
    else charsLt as bs

/-- Strict key order used to sort the canonicalized params. -/
def keyLt (a b : String) : Bool :=
  charsLt a.data b.data

/-- Insert a key/value pair into a key-sorted list of fields. -/
def insertField (kv : String × String) : List (String × String) → List (String × String)
  | [] => [kv]
  | kv0 :: rest =>
    if keyLt kv.fst kv0.fst then kv :: kv0 :: rest else kv0 :: insertField kv rest

/-- Sort fields by key (`Object.keys(rest).sort()` in the source; keys unique). -/
def sortFields : List (String × String) → List (String × String)
  | [] => []
  | kv :: rest => insertField kv (sortFields rest)

/-- ConfirmationManager.hashParams: drop `confirmationToken` and
`targetConfirmationToken`, sort the remaining keys, canonicalize. -/
def hashParams (params : List (String × String)) : List (String × String) :=
  sortFields (params.filter
    (fun kv => !(kv.fst == "confirmationToken" || kv.fst == "targetConfirmationToken")))

/-- ConfirmationRecord from the source: token, operation, params hash, mint
and expiry times (milliseconds). -/
structure ConfirmationRecord where
  token : String
  operation : String
  params : List (String × String)
  createdAt : Nat
  expiresAt : Nat
deriving DecidableEq

/-- ConfirmationManager state: the `confirmations` map, token → record. -/
structure ConfState where
  confirmations : List (String × ConfirmationRecord)
deriving DecidableEq

/-- TOKEN_EXPIRY_MS = 5 * 60 * 1000 (5 minutes). -/
def TOKEN_EXPIRY_MS : Nat := 5 * 60 * 1000

/-- ConfirmationManager.generateToken.  The random token string is an explicit
input (crypto.randomBytes in the source).  Returns the new state, the token
and its expiry time. -/
def generateToken (cm : ConfState) (operation : String)
    (params : List (String × String)) (now : Nat) (token : String) :
    ConfState × String × Nat :=
  let paramsHash := hashParams params
  let expiresAt := now + TOKEN_EXPIRY_MS
  (⟨mapSet cm.confirmations token
      ⟨token, operation, paramsHash, now, expiresAt⟩⟩, token, expiresAt)

/-- Failure reasons of verifyToken, in the order the source checks them. -/
inductive VerifyReason
  | notFound
  | expired
  | operationMismatch
  | paramsMismatch
deriving DecidableEq

/-- Result of verifyToken: `{ valid, reason? }`. -/
structure VerifyResult where
  valid : Bool
  reason : Option VerifyReason
deriving DecidableEq

/-- ConfirmationManager.verifyToken: existence, expiry (strict
`new Date() > record.expiresAt`), operation equality, params-hash equality;
deletes the record on success and on the expiry check, leaves it otherwise. -/
def verifyToken (cm : ConfState) (token operation : String)
    (params : List (String × String)) (now : Nat) : ConfState × VerifyResult :=
  match mapGet cm.confirmations token with
  | none => (cm, ⟨false, some .notFound⟩)
  | some record =>
    if record.expiresAt < now then
      (⟨mapDelete cm.confirmations token⟩, ⟨false, some .expired⟩)
    else if record.operation ≠ operation then
      (cm, ⟨false, some .operationMismatch⟩)
    else if record.params ≠ hashParams params then
      (cm, ⟨false, some .paramsMismatch⟩)
    else
      (⟨mapDelete cm.confirmations token⟩, ⟨true, none⟩)

/-- ConfirmationManager.cleanup: purge expired records (periodic sweep). -/
def cleanupConfirmations (cm : ConfState) (now : Nat) : ConfState :=
  ⟨cm.confirmations.filter (fun kv => !(kv.snd.expiresAt < now))⟩

/-! ## SSHManager (src/core/ssh-manager.ts)

Live connections, the config cache and persistent shell sessions are the
three maps of the class.  The ssh2 `Client` and `ClientChannel` handles are
opaque: they are embedded as numeric ids handed in by the environment.  The
network is external, so the outcome of a transport connect attempt is an
explicit `NetResult` argument. -/

/-- JS truthiness of an optional string (`undefined` and `''` are falsy). -/
def jsTruthy : Option String → Bool
  | none => false
  | some s => s != ""

/-- getConnectionKey from src/utils/index.ts: `username@host:port`. -/
def getConnectionKey (host : String) (port : Nat) (username : String) : String :=
  username ++ "@" ++ host ++ ":" ++ toString port

/-- ServerIdentity (types): host, port, username plus the optional alias and
environment carried by the cached config. -/
structure ServerIdentity where
  host : String
  port : Nat
  username : String
  aliasName : Option String := none
  environment : Option String := none
deriving DecidableEq

/-- ConnectOptions (types), including the alias/environment labels forwarded
by the connect tool. -/
structure ConnectOptions where
  host : String
  port : Option Nat := none
  username : String
  password : Option String := none
  privateKey : Option String := none
  passphrase : Option String := none
  aliasName : Option String := none
  environment : Option String := none
deriving DecidableEq

/-- SSHConnection wrapper: the opaque client handle plus the status fields. -/
structure SSHConnection where
  clientId : Nat
  connectedAt : Nat
  lastActivity : Nat
  isHealthy : Bool
  lastHealthCheck : Option Nat
  isManualDisconnect : Bool
deriving DecidableEq

/-- ShellSession: the opaque channel handle plus buffer/ready bookkeeping. -/
structure ShellSession where
  channelId : Nat
  buffer : String
  ready : Bool
  createdAt : Nat
  lastActivity : Nat
deriving DecidableEq

/-- The three maps owned by SSHManager. -/
structure SSHManagerState where
  connections : List (String × SSHConnection)
  configCache : List (String × ConnectOptions)
  shellSessions : List (String × ShellSession)
deriving DecidableEq

/-- The MCPServerConfig fields the embedded operations consult. -/
structure MCPConfig where
  maxConnections : Nat
  idleTimeout : Nat
  maxReconnectAttempts : Nat
deriving DecidableEq

/-- SSHErrorCode from types/index.ts. -/
inductive SSHErrorCode
  | CONNECTION_FAILED
  | AUTH_FAILED
  | COMMAND_TIMEOUT
  | SFTP_ERROR
  | PERMISSION_DENIED
  | NOT_CONNECTED
  | CONFIG_ERROR
  | CREDENTIAL_ERROR
deriving DecidableEq

/-- SSHError: code plus message. -/
structure SSHError where
  code : SSHErrorCode
  message : String
deriving DecidableEq

/-- ConnectionStatus from types/index.ts. -/
structure ConnectionStatus where
  connected : Bool
  host : String
  port : Nat
  username : String
  connectedAt : Option Nat := none
  lastActivity : Option Nat := none
deriving DecidableEq

/-- Outcome of one transport-level connect attempt (external): `ready`
within the timeout, an error whose message mentions authentication, or any
other failure (including timeout). -/
inductive NetResult
  | ok
  | failAuth
  | failConn
deriving DecidableEq

/-- Key parsing used when only a connection key is at hand:
`const [userHost, portStr] = key.split(':')`,
`const [username, host] = (userHost ?? '').split('@')`.
Returns (username?, host?, portStr?). -/
def keyParts (key : String) : Option String × Option String × Option String :=
  let parts := key.splitOn ":"
  let userHost := (parts.get? 0).getD ""
  let uh := userHost.splitOn "@"
  (uh.get? 0, uh.get? 1, parts.get? 1)

/-- `parseInt(portStr ?? d, 10)` on the well-formed digit strings produced by
getConnectionKey. -/
def parsePort (s : Option String) (d : String) : Nat :=
  ((s.getD d).toNat?).getD 0

/-- SSHManager.getStatus. -/
def getStatus (ssh : SSHManagerState) (key : String) : ConnectionStatus :=
  match mapGet ssh.connections key, mapGet ssh.configCache key with
  | none, some cachedConfig =>
    ⟨false, cachedConfig.host, cachedConfig.port.getD 22, cachedConfig.username, none, none⟩
  | none, none =>
    let (u, h, p) := keyParts key
    ⟨false, h.getD "", parsePort p "22", u.getD "", none, none⟩
  | some conn, cfg =>
    ⟨true, (cfg.map ConnectOptions.host).getD "", (cfg.bind ConnectOptions.port).getD 22,
      (cfg.map ConnectOptions.username).getD "", some conn.connectedAt, some conn.lastActivity⟩

/-- SSHManager.connect: cache the config unconditionally, reuse an existing
live connection, otherwise enforce the pool bound, require a credential, and
open a new transport connection whose outcome is the external `net`. -/
def connect (ssh : SSHManagerState) (cfg : MCPConfig) (options : ConnectOptions)
    (now clientId : Nat) (net : NetResult) :
    SSHManagerState × Except SSHError ConnectionStatus :=
  let key := getConnectionKey options.host (options.port.getD 22) options.username
  let ssh := { ssh with configCache := mapSet ssh.configCache key options }
  match mapGet ssh.connections key with
  | some existing =>
    let ssh := { ssh with
      connections := mapSet ssh.connections key { existing with lastActivity := now } }
    (ssh, .ok (getStatus ssh key))
  | none =>
    if cfg.maxConnections ≤ ssh.connections.length then
      (ssh, .error ⟨.CONNECTION_FAILED, "max connections reached"⟩)
    else if !(jsTruthy options.password) && !(jsTruthy options.privateKey) then
      (ssh, .error ⟨.AUTH_FAILED, "password or private key required"⟩)
    else
      match net with
      | .ok =>
        let ssh := { ssh with
          connections := mapSet ssh.connections key
            ⟨clientId, now, now, true, some now, false⟩ }
        (ssh, .ok (getStatus ssh key))
      | .failAuth => (ssh, .error ⟨.AUTH_FAILED, "connect failed"⟩)
      | .failConn => (ssh, .error ⟨.CONNECTION_FAILED, "connect failed"⟩)

/-- SSHManager.disconnectByKey: end and drop the shell session of the key,
then end and drop the connection; the cached config is untouched. -/
def disconnectByKey (ssh : SSHManagerState) (key : String) : SSHManagerState :=
  { ssh with
    shellSessions := mapDelete ssh.shellSessions key,
    connections := mapDelete ssh.connections key }

/-- SSHManager.disconnect: one key when host and username are given,
otherwise every live connection. -/
def disconnect (ssh : SSHManagerState) (host : Option String) (port : Option Nat)
    (username : Option String) : SSHManagerState :=
  if jsTruthy host && jsTruthy username then
    disconnectByKey ssh (getConnectionKey (host.getD "") (port.getD 22) (username.getD ""))
  else
    (mapKeys ssh.connections).foldl disconnectByKey ssh

/-- Retry loop of SSHManager.reconnect: up to `fuel` attempts, one external
outcome per attempt; a success returns immediately, exhaustion is
CONNECTION_FAILED (the config stays cached). -/
def reconnectAttempts (ssh : SSHManagerState) (cfg : MCPConfig)
    (cachedConfig : ConnectOptions) (now clientId : Nat)
    (outcomes : List NetResult) (fuel : Nat) :
    SSHManagerState × Except SSHError ConnectionStatus :=
  match fuel, outcomes with
  | 0, _ => (ssh, .error ⟨.CONNECTION_FAILED, "reconnect failed"⟩)
  | _ + 1, [] => (ssh, .error ⟨.CONNECTION_FAILED, "reconnect failed"⟩)
  | n + 1, net :: rest =>
    match connect ssh cfg cachedConfig now clientId net with
    | (ssh2, .ok st) => (ssh2, .ok st)
    | (ssh2, .error e) =>
      if n = 0 then (ssh2, .error ⟨.CONNECTION_FAILED, e.message⟩)
      else reconnectAttempts ssh2 cfg cachedConfig now (clientId + 1) rest n

/-- SSHManager.reconnect: requires a cached config, closes any stale state,
then retries connect with the cached config. -/
def reconnect (ssh : SSHManagerState) (cfg : MCPConfig) (host : String)
    (port : Nat) (username : String) (now clientId : Nat)
    (outcomes : List NetResult) : SSHManagerState × Except SSHError ConnectionStatus :=
  let key := getConnectionKey host port username
  match mapGet ssh.configCache key with
  | none => (ssh, .error ⟨.NOT_CONNECTED, "no cached config for this server"⟩)
  | some cachedConfig =>
    reconnectAttempts (disconnectByKey ssh key) cfg cachedConfig now clientId
      outcomes cfg.maxReconnectAttempts

/-- SSHManager.getConnection: look up the live connection and refresh its
lastActivity. -/
def getConnection (ssh : SSHManagerState) (host : String) (port : Nat)
    (username : String) (now : Nat) : SSHManagerState × Option Nat :=
  let key := getConnectionKey host port username
  match mapGet ssh.connections key with
  | some conn =>
    ({ ssh with connections := mapSet ssh.connections key { conn with lastActivity := now } },
      some conn.clientId)
  | none => (ssh, none)

/-- Selection loop of SSHManager.getActiveConnection: the entry with the
strictly greatest lastActivity, first entry winning ties. -/
def latestConnection (conns : List (String × SSHConnection)) :
    Option (String × SSHConnection) :=
  conns.foldl (fun acc kc =>
    match acc with
    | none => some kc
    | some best => if kc.2.lastActivity > best.2.lastActivity then some kc else some best)
    none

/-- SSHManager.getActiveConnection: most recently used connection, with its
lastActivity refreshed. -/
def getActiveConnection (ssh : SSHManagerState) (now : Nat) :
    SSHManagerState × Option (String × Nat) :=
  match latestConnection ssh.connections with
  | none => (ssh, none)
  | some (k, c) =>
    ({ ssh with connections := mapSet ssh.connections k { c with lastActivity := now } },
      some (k, c.clientId))

/-- SSHManager.listConnections. -/
def listConnections (ssh : SSHManagerState) : List ConnectionStatus :=
  (mapKeys ssh.connections).map (getStatus ssh)

/-- SSHManager.getServerIdentity: explicit host+username read alias and
environment off the cached config; with no explicit target, more than one
live connection is refused, exactly one resolves to the active connection,
none is an error. -/
def getServerIdentity (ssh : SSHManagerState) (host : Option String)
    (port : Option Nat) (username : Option String) (now : Nat) :
    SSHManagerState × Except String ServerIdentity :=
  if jsTruthy host && jsTruthy username then
    let key := getConnectionKey (host.getD "") (port.getD 22) (username.getD "")
    let config := mapGet ssh.configCache key
    (ssh, .ok ⟨host.getD "unknown", port.getD 22, username.getD "unknown",
      config.bind ConnectOptions.aliasName, config.bind ConnectOptions.environment⟩)
  else
    let allConnections := listConnections ssh
    if 1 < allConnections.length then
      (ssh, .error "multiple active connections, target must be explicit")
    else
      match getActiveConnection ssh now with
      | (ssh2, none) => (ssh2, .error "no active connection and no server given")
      | (ssh2, some (key, _)) =>
        let (u, h, p) := keyParts key
        (ssh2, .ok ⟨h.getD "unknown", parsePort p "22", u.getD "unknown", none, none⟩)

/-- SSHManager.cleanupIdleConnections: the periodic sweep drops every
connection idle beyond the threshold; configs are kept. -/
def cleanupIdleConnections (ssh : SSHManagerState) (cfg : MCPConfig)
    (now : Nat) : SSHManagerState :=
  { ssh with connections :=
      ssh.connections.filter (fun kc => !(cfg.idleTimeout < now - kc.2.lastActivity)) }

/-- SSHManager.clearConfigCache: drop one cached config, reporting whether it
was present; live state is not consulted. -/
def clearConfigCache (ssh : SSHManagerState) (host : String) (port : Nat)
    (username : String) : SSHManagerState × Bool :=
  let key := getConnectionKey host port username
  ({ ssh with configCache := mapDelete ssh.configCache key },
    (mapGet ssh.configCache key).isSome)

/-- SSHManager.clearAllConfigCache. -/
def clearAllConfigCache (ssh : SSHManagerState) : SSHManagerState :=
  { ssh with configCache := [] }

/-- SSHManager.getOrCreateShell: resolve the key (explicit target, or the
sole live connection), reuse a ready shell session, otherwise open a new
channel; creation is external (`created` = channel id and initial buffer on
success).  Returns the key, the session and whether it is new. -/
def getOrCreateShell (ssh : SSHManagerState) (host : Option String)
    (port : Option Nat) (username : Option String) (now : Nat)
    (created : Option (Nat × String)) :
    SSHManagerState × Except SSHError (String × ShellSession × Bool) :=
  let resolved : SSHManagerState × Except SSHError (String × Option Nat) :=
    if jsTruthy host && jsTruthy username then
      let connKey := getConnectionKey (host.getD "") (port.getD 22) (username.getD "")
      match getConnection ssh (host.getD "") (port.getD 22) (username.getD "") now with
      | (ssh2, client) => (ssh2, .ok (connKey, client))
    else
      let allConnections := listConnections ssh
      if 1 < allConnections.length then
        (ssh, .error ⟨.NOT_CONNECTED, "multiple active connections, target must be explicit"⟩)
      else
        match getActiveConnection ssh now with
        | (ssh2, none) => (ssh2, .error ⟨.NOT_CONNECTED, "no available ssh connection"⟩)
        | (ssh2, some (key, clientId)) => (ssh2, .ok (key, some clientId))
  match resolved with
  | (ssh2, .error e) => (ssh2, .error e)
  | (ssh2, .ok (connKey, client)) =>
    if client.isNone then
      (ssh2, .error ⟨.NOT_CONNECTED, "no available ssh connection"⟩)
    else
      match mapGet ssh2.shellSessions connKey with
      | some existing =>
        if existing.ready then
          let updated := { existing with lastActivity := now }
          ({ ssh2 with shellSessions := mapSet ssh2.shellSessions connKey updated },
            .ok (connKey, updated, false))
        else
          match created with
          | none => (ssh2, .error ⟨.CONNECTION_FAILED, "shell creation failed"⟩)
          | some (channelId, buf) =>
            let session : ShellSession := ⟨channelId, buf, true, now, now⟩
            ({ ssh2 with shellSessions := mapSet ssh2.shellSessions connKey session },
              .ok (connKey, session, true))
      | none =>
        match created with
        | none => (ssh2, .error ⟨.CONNECTION_FAILED, "shell creation failed"⟩)
        | some (channelId, buf) =>
          let session : ShellSession := ⟨channelId, buf, true, now, now⟩
          ({ ssh2 with shellSessions := mapSet ssh2.shellSessions connKey session },
            .ok (connKey, session, true))

/-! ## CommandExecutor (src/core/command-executor.ts, same source file)

The remote execution round trip is external; per-call outcomes are oracle
arguments.  `getClient` is the session-layer defense of default-target
resolution. -/

/-- Text of the safety error raised when several connections are live and no
explicit target was given; it lists the live connections. -/
def ambiguousMessage (conns : List ConnectionStatus) : String :=
  "multiple active connections, target must be explicit: " ++
    String.intercalate ", "
      (conns.map (fun c => c.username ++ "@" ++ c.host ++ ":" ++ toString c.port))

/-- CommandExecutor.getClient: explicit host+username look up that
connection; otherwise more than one live connection is refused with the
listing error, and the sole active connection (if any) is used. -/
def getClient (ssh : SSHManagerState) (host : Option String) (port : Option Nat)
    (username : Option String) (now : Nat) : SSHManagerState × Except SSHError Nat :=
  if jsTruthy host && jsTruthy username then
    match getConnection ssh (host.getD "") (port.getD 22) (username.getD "") now with
    | (ssh2, some clientId) => (ssh2, .ok clientId)
    | (ssh2, none) => (ssh2, .error ⟨.NOT_CONNECTED, "no available ssh connection"⟩)
  else
    let allConnections := listConnections ssh
    if 1 < allConnections.length then
      (ssh, .error ⟨.NOT_CONNECTED, ambiguousMessage allConnections⟩)
    else
      match getActiveConnection ssh now with
      | (ssh2, some (_, clientId)) => (ssh2, .ok clientId)
      | (ssh2, none) => (ssh2, .error ⟨.NOT_CONNECTED, "no available ssh connection"⟩)

/-- ExecResult (types), with the ServerIdentity the executor attaches. -/
structure ExecResult where
  stdout : String
  stderr : String
  exitCode : Int
  duration : Nat
  server : Option ServerIdentity := none
deriving DecidableEq

/-- BatchExecResult (types). -/
structure BatchExecResult where
  host : String
  success : Bool
  result : Option ExecResult := none
  error : Option String := none
deriving DecidableEq

/-- One entry of the servers array of exec_batch. -/
structure BatchServer where
  host : String
  port : Option Nat := none
  username : String
deriving DecidableEq

/-- CommandExecutor.execBatch: fan the shared command out over the servers;
each per-server `this.exec` round trip is the external `runExec`; a rejection
becomes a success=false entry carrying the error message. -/
def execBatch (command : String) (servers : List BatchServer)
    (runExec : String → BatchServer → Except String ExecResult) :
    List BatchExecResult :=
  servers.map (fun server =>
    match runExec command server with
    | .ok result => ⟨server.host, result.exitCode == 0, some result, none⟩
    | .error e => ⟨server.host, false, none, some e⟩)

/-- The config/state relationship of the spec: live session state implies a
cached config for the same key (a config may outlive its state, never the
other way round). -/
def StateConfigInvariant (ssh : SSHManagerState) : Prop :=
  ∀ k, (mapGet ssh.connections k).isSome = true →
    (mapGet ssh.configCache k).isSome = true

/-! ## TargetGuard (src/utils/target-guard.ts)

The guard reads the live-connection count off the SSHManager, resolves
aliases through the ServerStore (a map alias → ServerConfig) and mints or
verifies switch tokens through the ConfirmationManager.  `from`/`to` are
Lean keywords, so the response fields are named fromIdentity/toIdentity. -/

/-- ServerConfig held by the ServerStore (alias → connection parameters). -/
structure ServerConfig where
  aliasName : String
  host : String
  port : Option Nat := none
  username : String
  environment : Option String := none
deriving DecidableEq

/-- Tool-call parameters: union of the zod schemas of the exec-style tools.
Absent optional fields are `none` (JS `undefined`). -/
structure ToolParams where
  command : Option String := none
  input : Option String := none
  sudoPassword : Option String := none
  aliasName : Option String := none
  host : Option String := none
  port : Option Nat := none
  username : Option String := none
  timeout : Option Nat := none
  useLongTimeout : Option Bool := none
  cwd : Option String := none
  promptPattern : Option String := none
  servers : Option (List BatchServer) := none
  confirmationToken : Option String := none
  targetConfirmationToken : Option String := none
deriving DecidableEq

/-- Stand-in for JSON serialization of a servers array value. -/
def serializeServers (servers : List BatchServer) : String :=
  String.intercalate ";"
    (servers.map (fun s => s.username ++ "@" ++ s.host ++ ":" ++
      toString (s.port.getD 0) ++ ":" ++ toString s.port.isSome))

/-- The params object as the flat key/value fields hashParams consumes;
only present fields appear (JSON.stringify drops undefined). -/
def paramsFields (p : ToolParams) : List (String × String) :=
  (match p.command with | some v => [("command", v)] | none => []) ++
  (match p.input with | some v => [("input", v)] | none => []) ++
  (match p.sudoPassword with | some v => [("sudoPassword", v)] | none => []) ++
  (match p.aliasName with | some v => [("alias", v)] | none => []) ++
  (match p.host with | some v => [("host", v)] | none => []) ++
  (match p.port with | some v => [("port", toString v)] | none => []) ++
  (match p.username with | some v => [("username", v)] | none => []) ++
  (match p.timeout with | some v => [("timeout", toString v)] | none => []) ++
  (match p.useLongTimeout with | some v => [("useLongTimeout", toString v)] | none => []) ++
  (match p.cwd with | some v => [("cwd", v)] | none => []) ++
  (match p.promptPattern with | some v => [("promptPattern", v)] | none => []) ++
  (match p.servers with | some v => [("servers", serializeServers v)] | none => []) ++
  (match p.confirmationToken with | some v => [("confirmationToken", v)] | none => []) ++
  (match p.targetConfirmationToken with
    | some v => [("targetConfirmationToken", v)] | none => [])

/-- TargetGuard.buildTokenParams: the params minus targetConfirmationToken,
plus the synthetic `_operation` field. -/
def buildTokenParams (operation : String) (p : ToolParams) : List (String × String) :=
  ((paramsFields p).filter (fun kv => kv.fst ≠ "targetConfirmationToken")) ++
    [("_operation", operation)]

/-- TargetGuard mutable state: the last operated-on target. -/
structure TargetGuardState where
  lastTargetKey : Option String := none
  lastTargetIdentity : Option ServerIdentity := none
deriving DecidableEq

/-- Resolution result of TargetGuard.resolveServer. -/
structure ResolvedServer where
  host : String
  port : Nat
  username : String
deriving DecidableEq

/-- TargetGuard.resolveServer: alias first (missing alias throws), else
explicit host+username, else empty host (deferred to the lower layer). -/
def resolveServer (store : List (String × ServerConfig)) (p : ToolParams) :
    Except String ResolvedServer :=
  if jsTruthy p.aliasName then
    match mapGet store (p.aliasName.getD "") with
    | none => .error "unknown server alias"
    | some serverConfig =>
      .ok ⟨serverConfig.host, serverConfig.port.getD 22, serverConfig.username⟩
  else if jsTruthy p.host && jsTruthy p.username then
    .ok ⟨p.host.getD "", p.port.getD 22, p.username.getD ""⟩
  else
    .ok ⟨"", p.port.getD 22, ""⟩

/-- TargetGuard.buildIdentity: parse a ServerIdentity out of a connection
key. -/
def buildIdentity (key : String) : ServerIdentity :=
  let parts := keyParts key
  ⟨parts.2.1.getD "unknown", parsePort parts.2.2 "22", parts.1.getD "unknown",
    none, none⟩

/-- TargetGuard.formatIdentity: human-readable label of an identity. -/
def formatIdentity (identity : ServerIdentity) : String :=
  String.intercalate " "
    ((match identity.aliasName with | some a => ["[" ++ a ++ "]"] | none => []) ++
     [identity.username ++ "@" ++ identity.host ++ ":" ++ toString identity.port] ++
     (match identity.environment with | some e => [e.toUpper] | none => []))

/-- TargetSwitchResponse: the short-circuit payload of a pending switch. -/
structure TargetSwitchResponse where
  targetConfirmationToken : String
  expiresAt : Nat
  fromIdentity : ServerIdentity
  toIdentity : ServerIdentity
  warning : String
deriving DecidableEq

/-- Result of TargetGuard.validateTarget. -/
structure TargetValidationResult where
  resolved : ResolvedServer
  confirmationResponse : Option TargetSwitchResponse
deriving DecidableEq

/-- TargetGuard.validateTarget.  Resolution errors and a failed switch-token
verification throw; otherwise the resolved target is returned, with a
switch-confirmation response exactly when several sessions are live, a
different target was recorded, and no valid switch token accompanies the
call.  The guard state itself is not modified here (recordTarget does that);
the confirmation store is threaded because verifying consumes a token and
minting adds one. -/
def validateTarget (guard : TargetGuardState) (cm : ConfState)
    (store : List (String × ServerConfig)) (ssh : SSHManagerState)
    (operation : String) (p : ToolParams) (now : Nat) (freshToken : String) :
    ConfState × Except String TargetValidationResult :=
  match resolveServer store p with
  | .error e => (cm, .error e)
  | .ok resolved =>
    if resolved.host = "" then
      (cm, .ok ⟨resolved, none⟩)
    else
      let targetKey := getConnectionKey resolved.host resolved.port resolved.username
      let activeConnections := listConnections ssh
      if activeConnections.length ≤ 1 then
        (cm, .ok ⟨resolved, none⟩)
      else
        match guard.lastTargetKey with
        | none => (cm, .ok ⟨resolved, none⟩)
        | some lastKey =>
          if lastKey = targetKey then
            (cm, .ok ⟨resolved, none⟩)
          else
            let tokenOperation := "target_switch:" ++ operation
            if jsTruthy p.targetConfirmationToken then
              let vr := verifyToken cm (p.targetConfirmationToken.getD "")
                tokenOperation (buildTokenParams operation p) now
              if vr.2.valid then (vr.1, .ok ⟨resolved, none⟩)
              else (vr.1, .error "target switch confirmation failed")
            else
              let fromIdentity := guard.lastTargetIdentity.getD (buildIdentity lastKey)
              match (getServerIdentity ssh (some resolved.host) (some resolved.port)
                  (some resolved.username) now).2 with
              | .error e => (cm, .error e)
              | .ok toIdentity =>
                let minted := generateToken cm tokenOperation
                  (buildTokenParams operation p) now freshToken
                (minted.1, .ok ⟨resolved, some
                  ⟨minted.2.1, minted.2.2, fromIdentity, toIdentity,
                    "server switch detected: " ++ formatIdentity fromIdentity ++
                      " -> " ++ formatIdentity toIdentity⟩⟩)

/-- TargetGuard.recordTarget. -/
def recordTarget (guard : TargetGuardState) (key : String)
    (identity : ServerIdentity) : TargetGuardState :=
  { guard with lastTargetKey := some key, lastTargetIdentity := some identity }

/-- TargetGuard.resetTarget. -/
def resetTarget (_guard : TargetGuardState) : TargetGuardState :=
  ⟨none, none⟩

/-! ## ExecTools (src/tools/exec.ts)

The tool layer orchestrates guard, classifier and executor.  The dangerous
command classifier is the regex table `DANGEROUS_PATTERNS`; the
orchestration theorems hold for every classifier, so it is a function
parameter `detect`, as are the external execution round trips.  Each tool
returns, along with the new state and outcome, the list of instrumentation
events marking exactly where the source invokes the guard
(`guardValidate`), the classifier (`classifyDanger`) and the underlying
operation (`runCommand`). -/

/-- Instrumentation events of a tool call. -/
inductive ExecEvent
  | guardValidate
  | classifyDanger
  | runCommand
deriving DecidableEq

/-- The gateway-owned mutable state a tool call touches. -/
structure GatewayState where
  ssh : SSHManagerState
  guard : TargetGuardState
  cm : ConfState
deriving DecidableEq

/-- Outcome of a single-target exec-style tool call. -/
inductive ToolOutcome
  | result (r : ExecResult)
  | switchRequired (resp : TargetSwitchResponse)
  | confirmationRequired (token : String) (expiresAt : Nat) (warning : String)
deriving DecidableEq

/-- Outcome of shell_send. -/
inductive ShellSendOutcome
  | output (text : String) (promptDetected : Bool)
  | switchRequired (resp : TargetSwitchResponse)
  | confirmationRequired (token : String) (expiresAt : Nat) (warning : String)
deriving DecidableEq

/-- Outcome of exec_batch. -/
inductive BatchOutcome
  | results (rs : List BatchExecResult)
  | confirmationRequired (token : String) (expiresAt : Nat) (warning : String)
deriving DecidableEq

/-- ExecTools.handleDangerousCommand: nothing to do when the payload is
safe; with a token, verify it (failure throws); without one, mint a token
and short-circuit. -/
def handleDangerousCommand (cm : ConfState) (danger : Option String)
    (operation : String) (p : ToolParams) (warning : String)
    (now : Nat) (freshToken : String) :
    ConfState × Except String (Option (String × Nat × String)) :=
  match danger with
  | none => (cm, .ok none)
  | some _ =>
    if jsTruthy p.confirmationToken then
      let vr := verifyToken cm (p.confirmationToken.getD "") operation
        (paramsFields p) now
      if vr.2.valid then (vr.1, .ok none)
      else (vr.1, .error "confirmation failed")
    else
      let minted := generateToken cm operation (paramsFields p) now freshToken
      (minted.1, .ok (some (minted.2.1, minted.2.2, warning)))

/-- Override of the call params by the resolved target
(`params = { ...params, host, port, username }` when a host resolved). -/
def overrideTarget (p : ToolParams) (resolved : ResolvedServer) : ToolParams :=
  if resolved.host ≠ "" then
    { p with
      host := some resolved.host,
      port := some resolved.port,
      username := some resolved.username }
  else p

/-- ExecTools.formatServerLabel (display-only). -/
def formatServerLabel (server : Option ServerIdentity) : Option String :=
  match server with
  | none => none
  | some s =>
    some ("[server: " ++ s.aliasName.getD (s.host ++ ":" ++ toString s.port) ++
      " (" ++ s.username ++ "@" ++ s.host ++ ")" ++
      (match s.environment with | some e => " | env: " ++ e.toUpper | none => "") ++ "]")

/-- Prefix the stdout of a result with the server label. -/
def labelResult (r : ExecResult) : ExecResult :=
  match formatServerLabel r.server with
  | some label => { r with stdout := label ++ "\n" ++ r.stdout }
  | none => r

/-- ExecTools.exec: guard first (a pending switch short-circuits), then the
server identity for the environment warning, then the classifier with the
confirm-or-mint flow, then the executor; a success records the target.
Advisory suffixes appended to error messages in the source are display-only
and omitted. -/
def execTool (st : GatewayState) (store : List (String × ServerConfig))
    (detect : String → Option String)
    (runExec : ToolParams → Except String ExecResult)
    (p : ToolParams) (now : Nat) (freshToken : String) :
    GatewayState × List ExecEvent × Except String ToolOutcome :=
  let v := validateTarget st.guard st.cm store st.ssh "exec" p now freshToken
  match v.2 with
  | .error e => ({ st with cm := v.1 }, [.guardValidate], .error e)
  | .ok tvr =>
    match tvr.confirmationResponse with
    | some resp =>
      ({ st with cm := v.1 }, [.guardValidate], .ok (.switchRequired resp))
    | none =>
      let p2 := overrideTarget p tvr.resolved
      match (getServerIdentity st.ssh p2.host p2.port p2.username now).2 with
      | .error e => ({ st with cm := v.1 }, [.guardValidate], .error e)
      | .ok _serverIdentity =>
        let danger := detect (p2.command.getD "")
        match handleDangerousCommand v.1 danger "exec" p2
            "dangerous command detected" now freshToken with
        | (cm2, .error e) =>
          ({ st with cm := cm2 }, [.guardValidate, .classifyDanger], .error e)
        | (cm2, .ok (some c)) =>
          ({ st with cm := cm2 }, [.guardValidate, .classifyDanger],
            .ok (.confirmationRequired c.1 c.2.1 c.2.2))
        | (cm2, .ok none) =>
          match runExec p2 with
          | .error e =>
            ({ st with cm := cm2 },
              [.guardValidate, .classifyDanger, .runCommand], .error e)
          | .ok result =>
            let guard2 := match result.server with
              | some sid => recordTarget st.guard
                  (getConnectionKey sid.host sid.port sid.username) sid
              | none => st.guard
            ({ st with cm := cm2, guard := guard2 },
              [.guardValidate, .classifyDanger, .runCommand],
              .ok (.result (labelResult result)))

/-- ExecTools.execSudo: identical orchestration with operation exec_sudo. -/
def execSudoTool (st : GatewayState) (store : List (String × ServerConfig))
    (detect : String → Option String)
    (runExec : ToolParams → Except String ExecResult)
    (p : ToolParams) (now : Nat) (freshToken : String) :
    GatewayState × List ExecEvent × Except String ToolOutcome :=
  let v := validateTarget st.guard st.cm store st.ssh "exec_sudo" p now freshToken
  match v.2 with
  | .error e => ({ st with cm := v.1 }, [.guardValidate], .error e)
  | .ok tvr =>
    match tvr.confirmationResponse with
    | some resp =>
      ({ st with cm := v.1 }, [.guardValidate], .ok (.switchRequired resp))
    | none =>
      let p2 := overrideTarget p tvr.resolved
      match (getServerIdentity st.ssh p2.host p2.port p2.username now).2 with
      | .error e => ({ st with cm := v.1 }, [.guardValidate], .error e)
      | .ok _serverIdentity =>
        let danger := detect (p2.command.getD "")
        match handleDangerousCommand v.1 danger "exec_sudo" p2
            "dangerous sudo command detected" now freshToken with
        | (cm2, .error e) =>
          ({ st with cm := cm2 }, [.guardValidate, .classifyDanger], .error e)
        | (cm2, .ok (some c)) =>
          ({ st with cm := cm2 }, [.guardValidate, .classifyDanger],
            .ok (.confirmationRequired c.1 c.2.1 c.2.2))
        | (cm2, .ok none) =>
          match runExec p2 with
          | .error e =>
            ({ st with cm := cm2 },
              [.guardValidate, .classifyDanger, .runCommand], .error e)
          | .ok result =>
            let guard2 := match result.server with
              | some sid => recordTarget st.guard
                  (getConnectionKey sid.host sid.port sid.username) sid
              | none => st.guard
            ({ st with cm := cm2, guard := guard2 },
              [.guardValidate, .classifyDanger, .runCommand],
              .ok (.result (labelResult result)))

/-- ExecTools.execShell: identical orchestration with operation exec_shell
(PTY-based execution for bastion hosts). -/
def execShellTool (st : GatewayState) (store : List (String × ServerConfig))
    (detect : String → Option String)
    (runExec : ToolParams → Except String ExecResult)
    (p : ToolParams) (now : Nat) (freshToken : String) :
    GatewayState × List ExecEvent × Except String ToolOutcome :=
  let v := validateTarget st.guard st.cm store st.ssh "exec_shell" p now freshToken
  match v.2 with
  | .error e => ({ st with cm := v.1 }, [.guardValidate], .error e)
  | .ok tvr =>
    match tvr.confirmationResponse with
    | some resp =>
      ({ st with cm := v.1 }, [.guardValidate], .ok (.switchRequired resp))
    | none =>
      let p2 := overrideTarget p tvr.resolved
      match (getServerIdentity st.ssh p2.host p2.port p2.username now).2 with
      | .error e => ({ st with cm := v.1 }, [.guardValidate], .error e)
      | .ok _serverIdentity =>
        let danger := detect (p2.command.getD "")
        match handleDangerousCommand v.1 danger "exec_shell" p2
            "dangerous command detected" now freshToken with
        | (cm2, .error e) =>
          ({ st with cm := cm2 }, [.guardValidate, .classifyDanger], .error e)
        | (cm2, .ok (some c)) =>
          ({ st with cm := cm2 }, [.guardValidate, .classifyDanger],
            .ok (.confirmationRequired c.1 c.2.1 c.2.2))
        | (cm2, .ok none) =>
          match runExec p2 with
          | .error e =>
            ({ st with cm := cm2 },
              [.guardValidate, .classifyDanger, .runCommand], .error e)
          | .ok result =>
            let guard2 := match result.server with
              | some sid => recordTarget st.guard
                  (getConnectionKey sid.host sid.port sid.username) sid
              | none => st.guard
            ({ st with cm := cm2, guard := guard2 },
              [.guardValidate, .classifyDanger, .runCommand],
              .ok (.result (labelResult result)))

/-- ExecTools.shellSend: guard first, then the classifier on the input
(identity only consulted inside the danger branch, for the environment
warning), then the persistent-shell round trip; the target is recorded only
when host and username are present. -/
def shellSendTool (st : GatewayState) (store : List (String × ServerConfig))
    (detect : String → Option String)
    (runSend : ToolParams → Except String (String × Bool))
    (p : ToolParams) (now : Nat) (freshToken : String) :
    GatewayState × List ExecEvent × Except String ShellSendOutcome :=
  let v := validateTarget st.guard st.cm store st.ssh "shell_send" p now freshToken
  match v.2 with
  | .error e => ({ st with cm := v.1 }, [.guardValidate], .error e)
  | .ok tvr =>
    match tvr.confirmationResponse with
    | some resp =>
      ({ st with cm := v.1 }, [.guardValidate], .ok (.switchRequired resp))
    | none =>
      let p2 := overrideTarget p tvr.resolved
      let danger := detect (p2.input.getD "")
      match danger with
      | some d =>
        match (getServerIdentity st.ssh p2.host p2.port p2.username now).2 with
        | .error e =>
          ({ st with cm := v.1 }, [.guardValidate, .classifyDanger], .error e)
        | .ok _serverIdentity =>
          match handleDangerousCommand v.1 (some d) "shell_send" p2
              "dangerous input detected" now freshToken with
          | (cm2, .error e) =>
            ({ st with cm := cm2 }, [.guardValidate, .classifyDanger], .error e)
          | (cm2, .ok (some c)) =>
            ({ st with cm := cm2 }, [.guardValidate, .classifyDanger],
              .ok (.confirmationRequired c.1 c.2.1 c.2.2))
          | (cm2, .ok none) =>
            match runSend p2 with
            | .error e =>
              ({ st with cm := cm2 },
                [.guardValidate, .classifyDanger, .runCommand], .error e)
            | .ok out =>
              let guard2 :=
                if jsTruthy p2.host && jsTruthy p2.username then
                  recordTarget st.guard
                    (getConnectionKey (p2.host.getD "") (p2.port.getD 22)
                      (p2.username.getD ""))
                    ⟨p2.host.getD "unknown", p2.port.getD 22,
                      p2.username.getD "unknown", none, none⟩
                else st.guard
              ({ st with cm := cm2, guard := guard2 },
                [.guardValidate, .classifyDanger, .runCommand],
                .ok (.output out.1 out.2))
      | none =>
        match runSend p2 with
        | .error e =>
          ({ st with cm := v.1 },
            [.guardValidate, .classifyDanger, .runCommand], .error e)
        | .ok out =>
          let guard2 :=
            if jsTruthy p2.host && jsTruthy p2.username then
              recordTarget st.guard
                (getConnectionKey (p2.host.getD "") (p2.port.getD 22)
                  (p2.username.getD ""))
                ⟨p2.host.getD "unknown", p2.port.getD 22,
                  p2.username.getD "unknown", none, none⟩
            else st.guard
          ({ st with cm := v.1, guard := guard2 },
            [.guardValidate, .classifyDanger, .runCommand],
            .ok (.output out.1 out.2))

/-- ExecTools.execBatch: no TargetGuard involvement; the classifier runs
once on the shared command, with the confirm-or-mint flow, then
CommandExecutor.execBatch fans out per target. -/
def execBatchTool (st : GatewayState)
    (detect : String → Option String)
    (runExec : String → BatchServer → Except String ExecResult)
    (command : String) (servers : List BatchServer) (p : ToolParams)
    (now : Nat) (freshToken : String) :
    GatewayState × List ExecEvent × Except String BatchOutcome :=
  let danger := detect command
  match handleDangerousCommand st.cm danger "exec_batch" p
      "dangerous batch command detected" now freshToken with
  | (cm2, .error e) => ({ st with cm := cm2 }, [.classifyDanger], .error e)
  | (cm2, .ok (some c)) =>
    ({ st with cm := cm2 }, [.classifyDanger],
      .ok (.confirmationRequired c.1 c.2.1 c.2.2))
  | (cm2, .ok none) =>
    ({ st with cm := cm2 }, [.classifyDanger, .runCommand],
      .ok (.results (execBatch command servers runExec)))

/-! ## Theorems -/

theorem mapGet_mapSet_self {α : Type} (m : List (String × α)) (k : String) (v : α) :
    mapGet (mapSet m k v) k = some v := by
  induction m with
  | nil => simp [mapSet, mapGet]
  | cons hd tl ih =>
    obtain ⟨k0, v0⟩ := hd
    by_cases h : k0 = k
    · simp [mapSet, mapGet, h]
    · simp [mapSet, mapGet, h, ih]

theorem mem_mapKeys_mapSet {α : Type} (m : List (String × α)) (k k0 : String) (v : α)
    (h : k0 ∈ mapKeys (mapSet m k v)) : k0 ∈ mapKeys m ∨ k0 = k := by
  induction m with
  | nil =>
    simp only [mapSet, mapKeys, List.map_cons, List.map_nil, List.mem_singleton] at h
    exact Or.inr h
  | cons hd tl ih =>
    obtain ⟨k2, v2⟩ := hd
    rw [show mapKeys ((k2, v2) :: tl) = k2 :: mapKeys tl from rfl, List.mem_cons]
    by_cases h2 : k2 = k
    · subst h2
      rw [show mapSet ((k2, v2) :: tl) k2 v = (k2, v) :: tl from by simp [mapSet],
        show mapKeys ((k2, v) :: tl) = k2 :: mapKeys tl from rfl, List.mem_cons] at h
      rcases h with he | hm
      · exact Or.inr he
      · exact Or.inl (Or.inr hm)
    · rw [show mapSet ((k2, v2) :: tl) k v = (k2, v2) :: mapSet tl k v from by
          simp [mapSet, h2],
        show mapKeys ((k2, v2) :: mapSet tl k v) = k2 :: mapKeys (mapSet tl k v)
          from rfl, List.mem_cons] at h
      rcases h with he | hm
      · exact Or.inl (Or.inl he)
      · exact (ih hm).elim (fun a => Or.inl (Or.inr a)) Or.inr

theorem mapGet_eq_none_of_not_mem {α : Type} (m : List (String × α)) (k : String)
    (h : k ∉ mapKeys m) : mapGet m k = none := by
  induction m with
  | nil => simp [mapGet]
  | cons hd tl ih =>
    obtain ⟨k2, v2⟩ := hd
    simp only [mapKeys, List.map_cons, List.mem_cons] at h
    push_neg at h
    simp [mapGet, Ne.symm h.1, ih h.2]

theorem mapKeys_mapSet {α : Type} (m : List (String × α)) (k : String) (v : α)
    (h : (mapKeys m).Nodup) : (mapKeys (mapSet m k v)).Nodup := by
  induction m with
  | nil => simp [mapSet, mapKeys]
  | cons hd tl ih =>
    obtain ⟨k0, v0⟩ := hd
    rw [show mapKeys ((k0, v0) :: tl) = k0 :: mapKeys tl from rfl,
      List.nodup_cons] at h
    by_cases hk : k0 = k
    · subst hk
      rw [show mapSet ((k0, v0) :: tl) k0 v = (k0, v) :: tl from by simp [mapSet]]
      rw [show mapKeys ((k0, v) :: tl) = k0 :: mapKeys tl from rfl, List.nodup_cons]
      exact h
    · rw [show mapSet ((k0, v0) :: tl) k v = (k0, v0) :: mapSet tl k v from by
        simp [mapSet, hk]]
      rw [show mapKeys ((k0, v0) :: mapSet tl k v) = k0 :: mapKeys (mapSet tl k v)
        from rfl, List.nodup_cons]
      refine ⟨fun hmem => ?_, ih h.2⟩
      rcases mem_mapKeys_mapSet tl k k0 v hmem with hin | heq
      · exact h.1 hin
      · exact hk heq

theorem mapGet_mapDelete_self {α : Type} (m : List (String × α)) (k : String)
    (h : (mapKeys m).Nodup) : mapGet (mapDelete m k) k = none := by
  induction m with
  | nil => simp [mapDelete, mapGet]
  | cons hd tl ih =>
    obtain ⟨k0, v0⟩ := hd
    rw [show mapKeys ((k0, v0) :: tl) = k0 :: mapKeys tl from rfl,
      List.nodup_cons] at h
    by_cases hk : k0 = k
    · subst hk
      rw [show mapDelete ((k0, v0) :: tl) k0 = tl from by simp [mapDelete]]
      exact mapGet_eq_none_of_not_mem tl k0 h.1
    · rw [show mapDelete ((k0, v0) :: tl) k = (k0, v0) :: mapDelete tl k from by
        simp [mapDelete, hk]]
      simp [mapGet, hk, ih h.2]

/-- C2: a token minted for operation O and params P is rejected with a
params-mismatch reason when presented (unexpired) with O and any params whose
canonical hash differs from P's; and after one successful
verifyToken(token, O, P), a replay with the identical token, O and P is
rejected not-found, the record having been deleted on the first success. -/
theorem confirmation_token_binding_and_single_use
    (cm : ConfState) (operation token : String)
    (params params2 : List (String × String)) (now now1 now2 : Nat)
    (hnd : (mapKeys cm.confirmations).Nodup)
    (hnotexp : now1 ≤ now + TOKEN_EXPIRY_MS)
    (hmismatch : hashParams params2 ≠ hashParams params) :
    (verifyToken (generateToken cm operation params now token).1
        token operation params2 now1).2 = ⟨false, some .paramsMismatch⟩ ∧
    (verifyToken (generateToken cm operation params now token).1
        token operation params now1).2 = ⟨true, none⟩ ∧
    (verifyToken (verifyToken (generateToken cm operation params now token).1
          token operation params now1).1
        token operation params now2).2 = ⟨false, some .notFound⟩ := by
  have hget : mapGet (mapSet cm.confirmations token
        ⟨token, operation, hashParams params, now, now + TOKEN_EXPIRY_MS⟩) token
      = some ⟨token, operation, hashParams params, now, now + TOKEN_EXPIRY_MS⟩ :=
    mapGet_mapSet_self cm.confirmations token _
  have hlt : ¬ (now + TOKEN_EXPIRY_MS < now1) := Nat.not_lt.mpr hnotexp
  have hne : hashParams params ≠ hashParams params2 := Ne.symm hmismatch
  have hdel : mapGet (mapDelete (mapSet cm.confirmations token
        ⟨token, operation, hashParams params, now, now + TOKEN_EXPIRY_MS⟩) token) token
      = none :=
    mapGet_mapDelete_self _ token (mapKeys_mapSet cm.confirmations token _ hnd)
  refine ⟨?_, ?_, ?_⟩
  · simp [generateToken, verifyToken, hget, hlt, hne]
  · simp [generateToken, verifyToken, hget, hlt]
  · simp [generateToken, verifyToken, hget, hlt, hdel]

/-- C2 witness: concrete mint/verify round trips exercising every hypothesis. -/
theorem confirmation_token_binding_and_single_use_witness :
    (verifyToken (generateToken ⟨[]⟩ "exec" [("command", "ls")] 0 "t1").1
        "t1" "exec" [("command", "rm")] 1000).2 = ⟨false, some .paramsMismatch⟩ ∧
    (verifyToken (generateToken ⟨[]⟩ "exec" [("command", "ls")] 0 "t1").1
        "t1" "exec" [("command", "ls")] 1000).2 = ⟨true, none⟩ ∧
    (verifyToken (verifyToken (generateToken ⟨[]⟩ "exec" [("command", "ls")] 0 "t1").1
          "t1" "exec" [("command", "ls")] 1000).1
        "t1" "exec" [("command", "ls")] 2000).2 = ⟨false, some .notFound⟩ :=
  confirmation_token_binding_and_single_use ⟨[]⟩ "exec" "t1"
    [("command", "ls")] [("command", "rm")] 0 1000 2000
    (by decide) (by decide) (by decide)

/-- C6 counterexample: at exactly 5 minutes after minting
(now = createdAt + TOKEN_EXPIRY_MS, i.e. 5 minutes have elapsed) an
otherwise well-formed token is still accepted, because the source rejects
only on `new Date() > record.expiresAt` (strict). -/
theorem confirmation_expiry_boundary_accepts :
    (verifyToken (generateToken ⟨[]⟩ "exec" [("command", "ls")] 0 "t1").1
        "t1" "exec" [("command", "ls")] TOKEN_EXPIRY_MS).2 = ⟨true, none⟩ := by
  decide

/-- C6 (amended): once strictly more than 5 minutes have elapsed since
minting, verifyToken rejects the token with an expired reason even when the
operation kind and params match exactly, and the expired record is deleted
by that check. -/
theorem confirmation_token_expires_after_ttl
    (cm : ConfState) (operation token : String)
    (params : List (String × String)) (now now2 : Nat)
    (hnd : (mapKeys cm.confirmations).Nodup)
    (hexp : now + TOKEN_EXPIRY_MS < now2) :
    (verifyToken (generateToken cm operation params now token).1
        token operation params now2).2 = ⟨false, some .expired⟩ ∧
    mapGet (verifyToken (generateToken cm operation params now token).1
        token operation params now2).1.confirmations token = none := by
  have hget : mapGet (mapSet cm.confirmations token
        ⟨token, operation, hashParams params, now, now + TOKEN_EXPIRY_MS⟩) token
      = some ⟨token, operation, hashParams params, now, now + TOKEN_EXPIRY_MS⟩ :=
    mapGet_mapSet_self cm.confirmations token _
  have hdel : mapGet (mapDelete (mapSet cm.confirmations token
        ⟨token, operation, hashParams params, now, now + TOKEN_EXPIRY_MS⟩) token) token
      = none :=
    mapGet_mapDelete_self _ token (mapKeys_mapSet cm.confirmations token _ hnd)
  constructor
  · simp [generateToken, verifyToken, hget, hexp]
  · simp [generateToken, verifyToken, hget, hexp, hdel]

/-- C6 witness: a concrete token minted at 0 is rejected as expired at
300001 ms and its record is gone. -/
theorem confirmation_token_expires_after_ttl_witness :
    (verifyToken (generateToken ⟨[]⟩ "exec" [("command", "ls")] 0 "t1").1
        "t1" "exec" [("command", "ls")] 300001).2 = ⟨false, some .expired⟩ ∧
    mapGet (verifyToken (generateToken ⟨[]⟩ "exec" [("command", "ls")] 0 "t1").1
        "t1" "exec" [("command", "ls")] 300001).1.confirmations "t1" = none :=
  confirmation_token_expires_after_ttl ⟨[]⟩ "exec" "t1" [("command", "ls")]
    0 300001 (by decide) (by decide)

/-- C10: a verifyToken failure due to an operation-kind mismatch or a
params-hash mismatch leaves the stored record untouched, and the token can
still be redeemed afterwards with the originally bound operation and params
as long as it has not expired. -/
theorem confirmation_mismatch_preserves_record
    (cm : ConfState) (operation operation2 token : String)
    (params params2 : List (String × String)) (now now1 now2 : Nat)
    (h1 : now1 ≤ now + TOKEN_EXPIRY_MS) (h2 : now2 ≤ now + TOKEN_EXPIRY_MS)
    (hmis : operation2 ≠ operation ∨ hashParams params2 ≠ hashParams params) :
    (verifyToken (generateToken cm operation params now token).1
        token operation2 params2 now1).1
      = (generateToken cm operation params now token).1 ∧
    (verifyToken (generateToken cm operation params now token).1
        token operation2 params2 now1).2.valid = false ∧
    ((verifyToken (generateToken cm operation params now token).1
        token operation2 params2 now1).2.reason = some .operationMismatch ∨
     (verifyToken (generateToken cm operation params now token).1
        token operation2 params2 now1).2.reason = some .paramsMismatch) ∧
    (verifyToken (verifyToken (generateToken cm operation params now token).1
          token operation2 params2 now1).1
        token operation params now2).2 = ⟨true, none⟩ := by
  have hget : mapGet (mapSet cm.confirmations token
        ⟨token, operation, hashParams params, now, now + TOKEN_EXPIRY_MS⟩) token
      = some ⟨token, operation, hashParams params, now, now + TOKEN_EXPIRY_MS⟩ :=
    mapGet_mapSet_self cm.confirmations token _
  have hlt1 : ¬ (now + TOKEN_EXPIRY_MS < now1) := Nat.not_lt.mpr h1
  have hlt2 : ¬ (now + TOKEN_EXPIRY_MS < now2) := Nat.not_lt.mpr h2
  by_cases hop : operation = operation2
  · subst hop
    have hpm : hashParams params ≠ hashParams params2 := by
      rcases hmis with hbad | hpm
      · exact absurd rfl hbad
      · exact Ne.symm hpm
    refine ⟨?_, ?_, ?_, ?_⟩
    · simp [generateToken, verifyToken, hget, hlt1, hpm]
    · simp [generateToken, verifyToken, hget, hlt1, hpm]
    · simp [generateToken, verifyToken, hget, hlt1, hpm]
    · simp [generateToken, verifyToken, hget, hlt1, hlt2, hpm]
  · have hop2 : operation ≠ operation2 := hop
    refine ⟨?_, ?_, ?_, ?_⟩
    · simp [generateToken, verifyToken, hget, hlt1, hop2]
    · simp [generateToken, verifyToken, hget, hlt1, hop2]
    · simp [generateToken, verifyToken, hget, hlt1, hop2]
    · simp [generateToken, verifyToken, hget, hlt1, hlt2, hop2]

/-- C10 witness: a concrete kind-mismatch rejection leaves the record, and
the original (kind, params) still redeem the token. -/
theorem confirmation_mismatch_preserves_record_witness :
    (verifyToken (generateToken ⟨[]⟩ "exec" [("command", "ls")] 0 "t1").1
        "t1" "exec_sudo" [("command", "ls")] 1000).1
      = (generateToken ⟨[]⟩ "exec" [("command", "ls")] 0 "t1").1 ∧
    (verifyToken (generateToken ⟨[]⟩ "exec" [("command", "ls")] 0 "t1").1
        "t1" "exec_sudo" [("command", "ls")] 1000).2.valid = false ∧
    ((verifyToken (generateToken ⟨[]⟩ "exec" [("command", "ls")] 0 "t1").1
        "t1" "exec_sudo" [("command", "ls")] 1000).2.reason = some .operationMismatch ∨
     (verifyToken (generateToken ⟨[]⟩ "exec" [("command", "ls")] 0 "t1").1
        "t1" "exec_sudo" [("command", "ls")] 1000).2.reason = some .paramsMismatch) ∧
    (verifyToken (verifyToken (generateToken ⟨[]⟩ "exec" [("command", "ls")] 0 "t1").1
          "t1" "exec_sudo" [("command", "ls")] 1000).1
        "t1" "exec" [("command", "ls")] 2000).2 = ⟨true, none⟩ :=
  confirmation_mismatch_preserves_record ⟨[]⟩ "exec" "exec_sudo" "t1"
    [("command", "ls")] [("command", "ls")] 0 1000 2000
    (by decide) (by decide) (Or.inl (by decide))

theorem mapGet_mapSet {α : Type} (m : List (String × α)) (k k2 : String) (v : α) :
    mapGet (mapSet m k v) k2 = if k2 = k then some v else mapGet m k2 := by
  induction m with
  | nil =>
    by_cases h : k2 = k
    · subst h; simp [mapSet, mapGet]
    · simp [mapSet, mapGet, h, Ne.symm h]
  | cons hd tl ih =>
    obtain ⟨k0, v0⟩ := hd
    by_cases h0 : k0 = k
    · subst h0
      by_cases h2 : k2 = k0
      · subst h2; simp [mapSet, mapGet]
      · simp [mapSet, mapGet, h2, Ne.symm h2]
    · rw [show mapSet ((k0, v0) :: tl) k v = (k0, v0) :: mapSet tl k v from by
        simp [mapSet, h0]]
      by_cases h2 : k2 = k0
      · subst h2
        simp [mapGet, h0]
      · simp [mapGet, Ne.symm h2, ih]

theorem mapGet_mapDelete_ne {α : Type} (m : List (String × α)) (k k2 : String)
    (h : k2 ≠ k) : mapGet (mapDelete m k) k2 = mapGet m k2 := by
  induction m with
  | nil => simp [mapDelete]
  | cons hd tl ih =>
    obtain ⟨k0, v0⟩ := hd
    by_cases h0 : k0 = k
    · subst h0
      simp [mapDelete, mapGet, Ne.symm h]
    · by_cases h2 : k0 = k2
      · subst h2
        simp [mapDelete, mapGet, h0]
      · simp [mapDelete, mapGet, h0, h2, ih]

theorem isSome_mapGet_of_mapDelete {α : Type} (m : List (String × α)) (key k : String)
    (h : (mapGet (mapDelete m key) k).isSome = true) : (mapGet m k).isSome = true := by
  induction m with
  | nil => simp [mapDelete, mapGet] at h
  | cons hd tl ih =>
    obtain ⟨k0, v0⟩ := hd
    by_cases h0 : k0 = key
    · subst h0
      rw [show mapDelete ((k0, v0) :: tl) k0 = tl from by simp [mapDelete]] at h
      by_cases h2 : k0 = k
      · simp [mapGet, h2]
      · simpa [mapGet, h2] using h
    · rw [show mapDelete ((k0, v0) :: tl) key = (k0, v0) :: mapDelete tl key from by
        simp [mapDelete, h0]] at h
      by_cases h2 : k0 = k
      · simp [mapGet, h2]
      · simp only [mapGet, if_neg h2] at h ⊢
        exact ih h

theorem isSome_mapGet_of_filter {α : Type} (m : List (String × α))
    (p : String × α → Bool) (k : String)
    (h : (mapGet (m.filter p) k).isSome = true) : (mapGet m k).isSome = true := by
  induction m with
  | nil => simp [mapGet] at h
  | cons hd tl ih =>
    obtain ⟨k0, v0⟩ := hd
    by_cases h2 : k0 = k
    · simp [mapGet, h2]
    · simp only [mapGet, if_neg h2]
      rcases hp : p (k0, v0) with _ | _
      · rw [List.filter_cons, hp] at h
        exact ih h
      · rw [List.filter_cons, hp] at h
        simp only [mapGet, if_neg h2] at h
        exact ih h

theorem mapDelete_sublist {α : Type} (m : List (String × α)) (k : String) :
    (mapDelete m k).Sublist m := by
  induction m with
  | nil => simp [mapDelete]
  | cons hd tl ih =>
    obtain ⟨k0, v0⟩ := hd
    by_cases h0 : k0 = k
    · rw [show mapDelete ((k0, v0) :: tl) k = tl from by simp [mapDelete, h0]]
      exact List.sublist_cons_self (k0, v0) tl
    · rw [show mapDelete ((k0, v0) :: tl) k = (k0, v0) :: mapDelete tl k from by
        simp [mapDelete, h0]]
      exact List.Sublist.cons₂ (k0, v0) ih

theorem mapKeys_mapDelete_nodup {α : Type} (m : List (String × α)) (k : String)
    (h : (mapKeys m).Nodup) : (mapKeys (mapDelete m k)).Nodup :=
  List.Nodup.sublist (List.Sublist.map Prod.fst (mapDelete_sublist m k)) h

theorem mapDelete_length_le {α : Type} (m : List (String × α)) (k : String) :
    (mapDelete m k).length ≤ m.length :=
  List.Sublist.length_le (mapDelete_sublist m k)

theorem mapDelete_mapSet_length_le {α : Type} (m : List (String × α))
    (k : String) (v : α) : (mapDelete (mapSet m k v) k).length ≤ m.length := by
  induction m with
  | nil => simp [mapSet, mapDelete]
  | cons hd tl ih =>
    obtain ⟨k0, v0⟩ := hd
    by_cases h0 : k0 = k
    · subst h0
      simp [mapSet, mapDelete]
    · rw [show mapSet ((k0, v0) :: tl) k v = (k0, v0) :: mapSet tl k v from by
        simp [mapSet, h0],
        show mapDelete ((k0, v0) :: mapSet tl k v) k = (k0, v0) :: mapDelete (mapSet tl k v) k
          from by simp [mapDelete, h0]]
      simpa using ih

theorem mapKeys_mapSet_of_isSome {α : Type} (m : List (String × α)) (k : String)
    (v : α) (h : (mapGet m k).isSome = true) : mapKeys (mapSet m k v) = mapKeys m := by
  induction m with
  | nil => simp [mapGet] at h
  | cons hd tl ih =>
    obtain ⟨k0, v0⟩ := hd
    by_cases h0 : k0 = k
    · subst h0
      simp [mapSet, mapKeys]
    · simp only [mapGet, if_neg h0] at h
      rw [show mapSet ((k0, v0) :: tl) k v = (k0, v0) :: mapSet tl k v from by
        simp [mapSet, h0]]
      rw [show mapKeys ((k0, v0) :: mapSet tl k v) = k0 :: mapKeys (mapSet tl k v) from rfl,
        show mapKeys ((k0, v0) :: tl) = k0 :: mapKeys tl from rfl, ih h]

theorem listConnections_length (ssh : SSHManagerState) :
    (listConnections ssh).length = ssh.connections.length := by
  simp [listConnections, mapKeys]

/-- C7: with no explicit host/username and no alias, the session-layer
resolver getClient uses the sole live session when exactly one is live,
fails with a not-connected error when none is live, and fails with the
ambiguity error listing the live connections when two or more are live —
independent of TargetGuard, which getClient never consults. -/
theorem default_target_resolution (ssh : SSHManagerState) (now : Nat) :
    (ssh.connections = [] →
      (getClient ssh none none none now).2 =
        .error ⟨.NOT_CONNECTED, "no available ssh connection"⟩) ∧
    (∀ k c, ssh.connections = [(k, c)] →
      (getClient ssh none none none now).2 = .ok c.clientId) ∧
    (2 ≤ ssh.connections.length →
      (getClient ssh none none none now).2 =
        .error ⟨.NOT_CONNECTED, ambiguousMessage (listConnections ssh)⟩) := by
  refine ⟨?_, ?_, ?_⟩
  · intro hempty
    simp [getClient, jsTruthy, listConnections, mapKeys, hempty, getActiveConnection,
      latestConnection]
  · intro k c hone
    simp [getClient, jsTruthy, listConnections, mapKeys, hone, getActiveConnection,
      latestConnection]
  · intro hmany
    have hlen : 1 < (listConnections ssh).length := by
      rw [listConnections_length]; omega
    simp [getClient, jsTruthy, hlen]

/-- C7 witness: the three branches at concrete pool states. -/
theorem default_target_resolution_witness :
    (getClient (⟨[], [], []⟩ : SSHManagerState) none none none 5).2 =
      .error ⟨.NOT_CONNECTED, "no available ssh connection"⟩ ∧
    (getClient (⟨[("root@a:22", ⟨7, 0, 0, true, some 0, false⟩)], [], []⟩ :
        SSHManagerState) none none none 5).2 = .ok 7 ∧
    (getClient (⟨[("root@a:22", ⟨7, 0, 0, true, some 0, false⟩),
        ("root@b:22", ⟨8, 0, 1, true, some 0, false⟩)], [], []⟩ : SSHManagerState)
        none none none 5).2 =
      .error ⟨.NOT_CONNECTED, ambiguousMessage (listConnections
        ⟨[("root@a:22", ⟨7, 0, 0, true, some 0, false⟩),
          ("root@b:22", ⟨8, 0, 1, true, some 0, false⟩)], [], []⟩)⟩ :=
  ⟨(default_target_resolution ⟨[], [], []⟩ 5).1 rfl,
   (default_target_resolution _ 5).2.1 "root@a:22" ⟨7, 0, 0, true, some 0, false⟩ rfl,
   (default_target_resolution _ 5).2.2 (by simp)⟩

theorem connect_state_shape (ssh : SSHManagerState) (cfg : MCPConfig)
    (opts : ConnectOptions) (now cid : Nat) (net : NetResult) :
    (connect ssh cfg opts now cid net).1.configCache
        = mapSet ssh.configCache
            (getConnectionKey opts.host (opts.port.getD 22) opts.username) opts ∧
    ((connect ssh cfg opts now cid net).1.connections = ssh.connections ∨
      ∃ c, (connect ssh cfg opts now cid net).1.connections
        = mapSet ssh.connections
            (getConnectionKey opts.host (opts.port.getD 22) opts.username) c) ∧
    (connect ssh cfg opts now cid net).1.shellSessions = ssh.shellSessions := by
  cases hc : mapGet ssh.connections
      (getConnectionKey opts.host (opts.port.getD 22) opts.username) with
  | some existing =>
    refine ⟨?_, Or.inr ⟨{ existing with lastActivity := now }, ?_⟩, ?_⟩ <;>
      simp [connect, hc]
  | none =>
    by_cases hlim : cfg.maxConnections ≤ ssh.connections.length
    · refine ⟨?_, Or.inl ?_, ?_⟩ <;> simp [connect, hc, hlim]
    · by_cases hauth : !(jsTruthy opts.password) && !(jsTruthy opts.privateKey)
      · refine ⟨?_, Or.inl ?_, ?_⟩ <;> simp [connect, hc, hlim, hauth]
      · cases net with
        | ok =>
          refine ⟨?_, Or.inr ⟨⟨cid, now, now, true, some now, false⟩, ?_⟩, ?_⟩ <;>
            simp [connect, hc, hlim, hauth]
        | failAuth => refine ⟨?_, Or.inl ?_, ?_⟩ <;> simp [connect, hc, hlim, hauth]
        | failConn => refine ⟨?_, Or.inl ?_, ?_⟩ <;> simp [connect, hc, hlim, hauth]

theorem connect_preserves_inv (ssh : SSHManagerState) (cfg : MCPConfig)
    (opts : ConnectOptions) (now cid : Nat) (net : NetResult)
    (hinv : StateConfigInvariant ssh) :
    StateConfigInvariant (connect ssh cfg opts now cid net).1 := by
  intro k hk
  obtain ⟨hcache, hconns, -⟩ := connect_state_shape ssh cfg opts now cid net
  rw [hcache, mapGet_mapSet]
  by_cases hkk : k = getConnectionKey opts.host (opts.port.getD 22) opts.username
  · simp [hkk]
  · rw [if_neg hkk]
    rcases hconns with h | ⟨c, h⟩
    · exact hinv k (h ▸ hk)
    · rw [h, mapGet_mapSet, if_neg hkk] at hk
      exact hinv k hk

theorem disconnectByKey_preserves_inv (ssh : SSHManagerState) (key : String)
    (hinv : StateConfigInvariant ssh) :
    StateConfigInvariant (disconnectByKey ssh key) := by
  intro k hk
  exact hinv k (isSome_mapGet_of_mapDelete ssh.connections key k hk)

theorem foldl_disconnectByKey_preserves_inv (keys : List String)
    (ssh : SSHManagerState) (hinv : StateConfigInvariant ssh) :
    StateConfigInvariant (keys.foldl disconnectByKey ssh) := by
  induction keys generalizing ssh with
  | nil => simpa using hinv
  | cons k ks ih => exact ih _ (disconnectByKey_preserves_inv ssh k hinv)

theorem reconnectAttempts_preserves_inv (fuel : Nat) (outcomes : List NetResult)
    (ssh : SSHManagerState) (cfg : MCPConfig) (cachedConfig : ConnectOptions)
    (now cid : Nat) (hinv : StateConfigInvariant ssh) :
    StateConfigInvariant
      (reconnectAttempts ssh cfg cachedConfig now cid outcomes fuel).1 := by
  induction fuel generalizing ssh outcomes cid with
  | zero => simpa [reconnectAttempts] using hinv
  | succ n ih =>
    cases outcomes with
    | nil => simpa [reconnectAttempts] using hinv
    | cons net rest =>
      have hpre := connect_preserves_inv ssh cfg cachedConfig now cid net hinv
      simp only [reconnectAttempts]
      cases hc : connect ssh cfg cachedConfig now cid net with
      | mk ssh2 r =>
        rw [hc] at hpre
        cases r with
        | ok st => simpa using hpre
        | error e =>
          by_cases hn : n = 0
          · simpa [hn] using hpre
          · simpa [hn] using ih rest ssh2 (cid + 1) hpre

/-- C5 (amended): the state-implies-config invariant is preserved by
connect, disconnect (targeted or all), reconnect and the idle-eviction
sweep; clearConfigCache preserves it only when the cleared key has no live
session state, and clearAllConfigCache only when no session is live — the
cache-clearing operations check neither and can otherwise break it. -/
theorem config_invariant_preservation
    (ssh : SSHManagerState) (cfg : MCPConfig) (opts : ConnectOptions)
    (hostOpt : Option String) (portOpt : Option Nat) (userOpt : Option String)
    (h u : String) (p : Nat) (now clientId : Nat) (net : NetResult)
    (outcomes : List NetResult)
    (hinv : StateConfigInvariant ssh) :
    StateConfigInvariant (connect ssh cfg opts now clientId net).1 ∧
    StateConfigInvariant (disconnect ssh hostOpt portOpt userOpt) ∧
    StateConfigInvariant (reconnect ssh cfg h p u now clientId outcomes).1 ∧
    StateConfigInvariant (cleanupIdleConnections ssh cfg now) ∧
    ((mapGet ssh.connections (getConnectionKey h p u)).isSome = false →
      StateConfigInvariant (clearConfigCache ssh h p u).1) ∧
    (ssh.connections = [] → StateConfigInvariant (clearAllConfigCache ssh)) := by
  refine ⟨connect_preserves_inv ssh cfg opts now clientId net hinv, ?_, ?_, ?_, ?_, ?_⟩
  · rw [disconnect]
    by_cases hexp : jsTruthy hostOpt && jsTruthy userOpt
    · simpa [hexp] using disconnectByKey_preserves_inv ssh _ hinv
    · simpa [hexp] using
        foldl_disconnectByKey_preserves_inv (mapKeys ssh.connections) ssh hinv
  · rw [reconnect]
    cases hc : mapGet ssh.configCache (getConnectionKey h p u) with
    | none => simpa using hinv
    | some cachedConfig =>
      simpa using reconnectAttempts_preserves_inv cfg.maxReconnectAttempts outcomes
        (disconnectByKey ssh (getConnectionKey h p u)) cfg cachedConfig now clientId
        (disconnectByKey_preserves_inv ssh _ hinv)
  · intro k hk
    exact hinv k (isSome_mapGet_of_filter ssh.connections _ k hk)
  · intro hnone k hk
    by_cases hkk : k = getConnectionKey h p u
    · subst hkk
      rw [show (clearConfigCache ssh h p u).1.connections = ssh.connections from rfl]
        at hk
      rw [hk] at hnone
      exact absurd hnone (by simp)
    · rw [show (clearConfigCache ssh h p u).1.configCache
          = mapDelete ssh.configCache (getConnectionKey h p u) from rfl,
        mapGet_mapDelete_ne ssh.configCache _ k hkk]
      exact hinv k hk
  · intro hempty k hk
    rw [show (clearAllConfigCache ssh).connections = ssh.connections from rfl,
      hempty] at hk
    simp [mapGet] at hk

/-- C5 counterexample: clearConfigCache does not consult live state — on a
pool holding one live session and its cached config, clearing that key's
config leaves state-without-config, violating the invariant the claim says
every operation preserves. -/
theorem config_invariant_clear_cache_counterexample :
    StateConfigInvariant
      ⟨[("root@a:22", ⟨1, 0, 0, true, some 0, false⟩)],
       [("root@a:22", ⟨"a", some 22, "root", some "pw", none, none, none, none⟩)],
       []⟩ ∧
    ¬ StateConfigInvariant
      (clearConfigCache
        ⟨[("root@a:22", ⟨1, 0, 0, true, some 0, false⟩)],
         [("root@a:22", ⟨"a", some 22, "root", some "pw", none, none, none, none⟩)],
         []⟩ "a" 22 "root").1 := by
  constructor
  · intro k hk
    by_cases hkk : ("root@a:22" : String) = k
    · simp [mapGet, hkk]
    · simp [mapGet, hkk] at hk
  · intro hinv
    have hkey : getConnectionKey "a" 22 "root" = "root@a:22" := by decide
    have hq := hinv "root@a:22" (by simp [mapGet])
    rw [show (clearConfigCache
        ⟨[("root@a:22", ⟨1, 0, 0, true, some 0, false⟩)],
         [("root@a:22", ⟨"a", some 22, "root", some "pw", none, none, none, none⟩)],
         []⟩ "a" 22 "root").1.configCache
      = mapDelete
          [("root@a:22", ⟨"a", some 22, "root", some "pw", none, none, none, none⟩)]
          (getConnectionKey "a" 22 "root") from rfl, hkey] at hq
    simp [mapDelete, mapGet] at hq

/-- C5 witness: the amended preservation theorem at a concrete pool that has
a cached config and no live state. -/
theorem config_invariant_preservation_witness :
    StateConfigInvariant (connect
      ⟨[], [("root@a:22", ⟨"a", some 22, "root", some "pw", none, none, none, none⟩)],
        []⟩ ⟨10, 1000, 3⟩ ⟨"a", some 22, "root", some "pw", none, none, none, none⟩
      0 1 .ok).1 ∧
    StateConfigInvariant (disconnect
      ⟨[], [("root@a:22", ⟨"a", some 22, "root", some "pw", none, none, none, none⟩)],
        []⟩ (some "a") (some 22) (some "root")) ∧
    StateConfigInvariant (reconnect
      ⟨[], [("root@a:22", ⟨"a", some 22, "root", some "pw", none, none, none, none⟩)],
        []⟩ ⟨10, 1000, 3⟩ "a" 22 "root" 0 1 [.ok]).1 ∧
    StateConfigInvariant (cleanupIdleConnections
      ⟨[], [("root@a:22", ⟨"a", some 22, "root", some "pw", none, none, none, none⟩)],
        []⟩ ⟨10, 1000, 3⟩ 0) ∧
    StateConfigInvariant (clearConfigCache
      ⟨[], [("root@a:22", ⟨"a", some 22, "root", some "pw", none, none, none, none⟩)],
        []⟩ "a" 22 "root").1 ∧
    StateConfigInvariant (clearAllConfigCache
      ⟨[], [("root@a:22", ⟨"a", some 22, "root", some "pw", none, none, none, none⟩)],
        []⟩) := by
  have hinv : StateConfigInvariant
      ⟨[], [("root@a:22", ⟨"a", some 22, "root", some "pw", none, none, none, none⟩)],
        []⟩ := by
    intro k hk
    simp [mapGet] at hk
  have T := config_invariant_preservation
    ⟨[], [("root@a:22", ⟨"a", some 22, "root", some "pw", none, none, none, none⟩)],
      []⟩ ⟨10, 1000, 3⟩ ⟨"a", some 22, "root", some "pw", none, none, none, none⟩
    (some "a") (some 22) (some "root") "a" "root" 22 0 1 .ok [.ok] hinv
  exact ⟨T.1, T.2.1, T.2.2.1, T.2.2.2.1, T.2.2.2.2.1 (by rfl), T.2.2.2.2.2 rfl⟩

theorem connect_ok_shape (ssh : SSHManagerState) (cfg : MCPConfig)
    (opts : ConnectOptions) (now cid : Nat)
    (hcap : ssh.connections.length < cfg.maxConnections)
    (hauth : jsTruthy opts.password = true ∨ jsTruthy opts.privateKey = true) :
    (∃ c, (connect ssh cfg opts now cid .ok).1
        = { ssh with
            configCache := mapSet ssh.configCache
              (getConnectionKey opts.host (opts.port.getD 22) opts.username) opts,
            connections := mapSet ssh.connections
              (getConnectionKey opts.host (opts.port.getD 22) opts.username) c }) ∧
    (connect ssh cfg opts now cid .ok).2
      = Except.ok (getStatus (connect ssh cfg opts now cid .ok).1
          (getConnectionKey opts.host (opts.port.getD 22) opts.username)) := by
  have hlim : ¬ (cfg.maxConnections ≤ ssh.connections.length) := Nat.not_le.mpr hcap
  have hauthf : (!(jsTruthy opts.password) && !(jsTruthy opts.privateKey)) = false := by
    rcases hauth with h | h <;> simp [h]
  cases hc : mapGet ssh.connections
      (getConnectionKey opts.host (opts.port.getD 22) opts.username) with
  | some existing =>
    exact ⟨⟨{ existing with lastActivity := now }, by simp [connect, hc]⟩,
      by simp [connect, hc]⟩
  | none =>
    exact ⟨⟨⟨cid, now, now, true, some now, false⟩,
      by simp [connect, hc, hlim, hauthf]⟩, by simp [connect, hc, hlim, hauthf]⟩

/-- C4: after connect(config) and a disconnect of that key, reconnect with
only host/port/username succeeds off the cached config, and the
ServerIdentity later reported for the key — host, port, username, alias,
environment — is identical to the identity reported right after the
original connect. -/
theorem reconnect_round_trip
    (ssh : SSHManagerState) (cfg : MCPConfig) (opts : ConnectOptions)
    (now1 now2 now3 now4 cid1 cid2 : Nat)
    (hcap : ssh.connections.length < cfg.maxConnections)
    (hatt : 1 ≤ cfg.maxReconnectAttempts)
    (hhost : opts.host ≠ "") (huser : opts.username ≠ "")
    (hauth : jsTruthy opts.password = true ∨ jsTruthy opts.privateKey = true) :
    (∃ st, (reconnect (disconnect (connect ssh cfg opts now1 cid1 .ok).1
        (some opts.host) opts.port (some opts.username)) cfg
        opts.host (opts.port.getD 22) opts.username now2 cid2 [.ok]).2
      = Except.ok st) ∧
    (getServerIdentity (reconnect (disconnect (connect ssh cfg opts now1 cid1 .ok).1
        (some opts.host) opts.port (some opts.username)) cfg
        opts.host (opts.port.getD 22) opts.username now2 cid2 [.ok]).1
        (some opts.host) (some (opts.port.getD 22)) (some opts.username) now3).2
      = .ok ⟨opts.host, opts.port.getD 22, opts.username, opts.aliasName,
          opts.environment⟩ ∧
    (getServerIdentity (connect ssh cfg opts now1 cid1 .ok).1
        (some opts.host) (some (opts.port.getD 22)) (some opts.username) now4).2
      = .ok ⟨opts.host, opts.port.getD 22, opts.username, opts.aliasName,
          opts.environment⟩ := by
  have hjs : (jsTruthy (some opts.host) && jsTruthy (some opts.username)) = true := by
    simp [jsTruthy, hhost, huser]
  obtain ⟨⟨c, hc1⟩, hst1⟩ := connect_ok_shape ssh cfg opts now1 cid1 hcap hauth
  -- the state after the original connect
  have hcache1 : (connect ssh cfg opts now1 cid1 .ok).1.configCache
      = mapSet ssh.configCache
          (getConnectionKey opts.host (opts.port.getD 22) opts.username) opts := by
    rw [hc1]
  have hconn1 : (connect ssh cfg opts now1 cid1 .ok).1.connections
      = mapSet ssh.connections
          (getConnectionKey opts.host (opts.port.getD 22) opts.username) c := by
    rw [hc1]
  -- disconnect reduces to disconnectByKey of the same key
  have hd : disconnect (connect ssh cfg opts now1 cid1 .ok).1
      (some opts.host) opts.port (some opts.username)
      = disconnectByKey (connect ssh cfg opts now1 cid1 .ok).1
          (getConnectionKey opts.host (opts.port.getD 22) opts.username) := by
    simp [disconnect, hjs]
  -- state after the disconnect
  have hcache2 : (disconnect (connect ssh cfg opts now1 cid1 .ok).1
      (some opts.host) opts.port (some opts.username)).configCache
      = mapSet ssh.configCache
          (getConnectionKey opts.host (opts.port.getD 22) opts.username) opts := by
    rw [hd]; simp [disconnectByKey, hcache1]
  have hconn2 : (disconnect (connect ssh cfg opts now1 cid1 .ok).1
      (some opts.host) opts.port (some opts.username)).connections
      = mapDelete (mapSet ssh.connections
          (getConnectionKey opts.host (opts.port.getD 22) opts.username) c)
          (getConnectionKey opts.host (opts.port.getD 22) opts.username) := by
    rw [hd]; simp [disconnectByKey, hconn1]
  -- reconnect finds the cached config and runs one successful attempt
  have hcfgget : mapGet (disconnect (connect ssh cfg opts now1 cid1 .ok).1
      (some opts.host) opts.port (some opts.username)).configCache
      (getConnectionKey opts.host (opts.port.getD 22) opts.username) = some opts := by
    rw [hcache2]; exact mapGet_mapSet_self ssh.configCache _ opts
  obtain ⟨n, hn⟩ : ∃ n, cfg.maxReconnectAttempts = n + 1 :=
    ⟨cfg.maxReconnectAttempts - 1, by omega⟩
  -- the state handed to the first reconnect attempt
  have hcacheX : (disconnectByKey (disconnect (connect ssh cfg opts now1 cid1 .ok).1
      (some opts.host) opts.port (some opts.username))
      (getConnectionKey opts.host (opts.port.getD 22) opts.username)).configCache
      = mapSet ssh.configCache
          (getConnectionKey opts.host (opts.port.getD 22) opts.username) opts := by
    simp [disconnectByKey, hcache2]
  have hconn3 : (disconnectByKey (disconnect (connect ssh cfg opts now1 cid1 .ok).1
      (some opts.host) opts.port (some opts.username))
      (getConnectionKey opts.host (opts.port.getD 22) opts.username)).connections
      = mapDelete (mapDelete (mapSet ssh.connections
          (getConnectionKey opts.host (opts.port.getD 22) opts.username) c)
          (getConnectionKey opts.host (opts.port.getD 22) opts.username))
          (getConnectionKey opts.host (opts.port.getD 22) opts.username) := by
    simp [disconnectByKey, hconn2]
  have hlen3 : ((disconnectByKey (disconnect (connect ssh cfg opts now1 cid1 .ok).1
      (some opts.host) opts.port (some opts.username))
      (getConnectionKey opts.host (opts.port.getD 22) opts.username)).connections).length
      < cfg.maxConnections := by
    rw [hconn3]
    exact lt_of_le_of_lt
      (le_trans (mapDelete_length_le _ _) (mapDelete_mapSet_length_le _ _ _)) hcap
  obtain ⟨⟨c3, hc3⟩, hst3⟩ := connect_ok_shape
    (disconnectByKey (disconnect (connect ssh cfg opts now1 cid1 .ok).1
      (some opts.host) opts.port (some opts.username))
      (getConnectionKey opts.host (opts.port.getD 22) opts.username))
    cfg opts now2 cid2 hlen3 hauth
  have hpair : connect (disconnectByKey (disconnect (connect ssh cfg opts now1 cid1 .ok).1
      (some opts.host) opts.port (some opts.username))
      (getConnectionKey opts.host (opts.port.getD 22) opts.username))
      cfg opts now2 cid2 .ok
      = ((connect (disconnectByKey (disconnect (connect ssh cfg opts now1 cid1 .ok).1
          (some opts.host) opts.port (some opts.username))
          (getConnectionKey opts.host (opts.port.getD 22) opts.username))
          cfg opts now2 cid2 .ok).1,
        Except.ok (getStatus (connect (disconnectByKey
          (disconnect (connect ssh cfg opts now1 cid1 .ok).1
            (some opts.host) opts.port (some opts.username))
          (getConnectionKey opts.host (opts.port.getD 22) opts.username))
          cfg opts now2 cid2 .ok).1
          (getConnectionKey opts.host (opts.port.getD 22) opts.username))) := by
    rw [← hst3]
  have hrec : reconnect (disconnect (connect ssh cfg opts now1 cid1 .ok).1
      (some opts.host) opts.port (some opts.username)) cfg
      opts.host (opts.port.getD 22) opts.username now2 cid2 [.ok]
      = connect (disconnectByKey (disconnect (connect ssh cfg opts now1 cid1 .ok).1
          (some opts.host) opts.port (some opts.username))
          (getConnectionKey opts.host (opts.port.getD 22) opts.username))
          cfg opts now2 cid2 .ok := by
    simp only [reconnect, hcfgget, hn]
    simp only [reconnectAttempts]
    rw [hpair]
  refine ⟨⟨getStatus (connect (disconnectByKey
      (disconnect (connect ssh cfg opts now1 cid1 .ok).1
        (some opts.host) opts.port (some opts.username))
      (getConnectionKey opts.host (opts.port.getD 22) opts.username))
      cfg opts now2 cid2 .ok).1
      (getConnectionKey opts.host (opts.port.getD 22) opts.username),
      by rw [hrec, hst3]⟩, ?_, ?_⟩
  · have hcache4 : (connect (disconnectByKey (disconnect
        (connect ssh cfg opts now1 cid1 .ok).1
        (some opts.host) opts.port (some opts.username))
        (getConnectionKey opts.host (opts.port.getD 22) opts.username))
        cfg opts now2 cid2 .ok).1.configCache
        = mapSet (mapSet ssh.configCache
            (getConnectionKey opts.host (opts.port.getD 22) opts.username) opts)
            (getConnectionKey opts.host (opts.port.getD 22) opts.username) opts := by
      rw [hc3]; simp [hcacheX]
    rw [hrec]
    simp [getServerIdentity, hjs, hcache4, mapGet_mapSet_self]
  · simp [getServerIdentity, hjs, hcache1, mapGet_mapSet_self]

/-- C4 witness: the round trip at a concrete pool and config. -/
theorem reconnect_round_trip_witness :
    (∃ st, (reconnect (disconnect (connect ⟨[], [], []⟩ ⟨10, 1000, 3⟩
        ⟨"a", some 22, "root", some "pw", none, none, some "web", some "prod"⟩
        0 1 .ok).1
        (some "a") (some 22) (some "root")) ⟨10, 1000, 3⟩
        "a" 22 "root" 5 2 [.ok]).2 = Except.ok st) ∧
    (getServerIdentity (reconnect (disconnect (connect ⟨[], [], []⟩ ⟨10, 1000, 3⟩
        ⟨"a", some 22, "root", some "pw", none, none, some "web", some "prod"⟩
        0 1 .ok).1
        (some "a") (some 22) (some "root")) ⟨10, 1000, 3⟩
        "a" 22 "root" 5 2 [.ok]).1
        (some "a") (some 22) (some "root") 6).2
      = .ok ⟨"a", 22, "root", some "web", some "prod"⟩ ∧
    (getServerIdentity (connect ⟨[], [], []⟩ ⟨10, 1000, 3⟩
        ⟨"a", some 22, "root", some "pw", none, none, some "web", some "prod"⟩
        0 1 .ok).1
        (some "a") (some 22) (some "root") 7).2
      = .ok ⟨"a", 22, "root", some "web", some "prod"⟩ :=
  reconnect_round_trip ⟨[], [], []⟩ ⟨10, 1000, 3⟩
    ⟨"a", some 22, "root", some "pw", none, none, some "web", some "prod"⟩
    0 5 6 7 1 2 (by decide) (by decide)
    (by decide) (by decide) (Or.inl (by decide))

theorem getOrCreateShell_reuse (ssh : SSHManagerState) (h u : String) (p : Option Nat)
    (now : Nat) (created : Option (Nat × String)) (conn : SSHConnection)
    (s : ShellSession) (hh : h ≠ "") (hu : u ≠ "")
    (hconn : mapGet ssh.connections (getConnectionKey h (p.getD 22) u) = some conn)
    (hshell : mapGet ssh.shellSessions (getConnectionKey h (p.getD 22) u) = some s)
    (hready : s.ready = true) :
    getOrCreateShell ssh (some h) p (some u) now created
      = ({ ssh with
            connections := mapSet ssh.connections (getConnectionKey h (p.getD 22) u)
              { conn with lastActivity := now },
            shellSessions := mapSet ssh.shellSessions (getConnectionKey h (p.getD 22) u)
              { s with lastActivity := now } },
        .ok (getConnectionKey h (p.getD 22) u, { s with lastActivity := now }, false)) := by
  have hjs : (jsTruthy (some h) && jsTruthy (some u)) = true := by
    simp [jsTruthy, hh, hu]
  simp [getOrCreateShell, hjs, getConnection, hconn, hshell, hready]

/-- C9: once getOrCreateShell has succeeded for a live target key, an
immediately following call for the same target returns the same shell
session (same channel, same buffer, only lastActivity refreshed) with
isNew = false, and opens no second channel: the set of session keys is
unchanged. -/
theorem shell_session_reused
    (ssh : SSHManagerState) (h u : String) (p : Option Nat)
    (now1 now2 : Nat) (created1 created2 : Option (Nat × String))
    (k : String) (s : ShellSession) (isNew : Bool)
    (hh : h ≠ "") (hu : u ≠ "")
    (hfirst : (getOrCreateShell ssh (some h) p (some u) now1 created1).2
      = .ok (k, s, isNew)) :
    (getOrCreateShell (getOrCreateShell ssh (some h) p (some u) now1 created1).1
        (some h) p (some u) now2 created2).2
      = .ok (k, ⟨s.channelId, s.buffer, s.ready, s.createdAt, now2⟩, false) ∧
    mapKeys (getOrCreateShell (getOrCreateShell ssh (some h) p (some u) now1 created1).1
        (some h) p (some u) now2 created2).1.shellSessions
      = mapKeys (getOrCreateShell ssh (some h) p (some u) now1 created1).1.shellSessions := by
  have hjs : (jsTruthy (some h) && jsTruthy (some u)) = true := by
    simp [jsTruthy, hh, hu]
  -- once the first call is known to have stored the (ready) returned session
  -- under the key, the second call is the reuse path
  have hmain : ∀ conn,
      mapGet ssh.connections (getConnectionKey h (p.getD 22) u) = some conn →
      (getOrCreateShell ssh (some h) p (some u) now1 created1).1
        = { ssh with
            connections := mapSet ssh.connections (getConnectionKey h (p.getD 22) u)
              { conn with lastActivity := now1 },
            shellSessions := mapSet ssh.shellSessions (getConnectionKey h (p.getD 22) u)
              s } →
      s.ready = true →
      (getOrCreateShell (getOrCreateShell ssh (some h) p (some u) now1 created1).1
          (some h) p (some u) now2 created2).2
        = .ok (getConnectionKey h (p.getD 22) u,
            ⟨s.channelId, s.buffer, s.ready, s.createdAt, now2⟩, false) ∧
      mapKeys (getOrCreateShell (getOrCreateShell ssh (some h) p (some u) now1 created1).1
          (some h) p (some u) now2 created2).1.shellSessions
        = mapKeys (getOrCreateShell
            ssh (some h) p (some u) now1 created1).1.shellSessions := by
    intro conn hconn hstate hready
    have hconn1 : mapGet
        (getOrCreateShell ssh (some h) p (some u) now1 created1).1.connections
        (getConnectionKey h (p.getD 22) u)
        = some { conn with lastActivity := now1 } := by
      rw [hstate]; exact mapGet_mapSet_self _ _ _
    have hshell1 : mapGet
        (getOrCreateShell ssh (some h) p (some u) now1 created1).1.shellSessions
        (getConnectionKey h (p.getD 22) u) = some s := by
      rw [hstate]; exact mapGet_mapSet_self _ _ _
    have hsecond := getOrCreateShell_reuse
      (getOrCreateShell ssh (some h) p (some u) now1 created1).1 h u p now2 created2
      { conn with lastActivity := now1 } s hh hu hconn1 hshell1 hready
    refine ⟨by rw [hsecond], ?_⟩
    rw [hsecond]
    exact mapKeys_mapSet_of_isSome _ _ _ (by rw [hshell1]; rfl)
  cases hconn : mapGet ssh.connections (getConnectionKey h (p.getD 22) u) with
  | none =>
    exfalso
    simp [getOrCreateShell, hjs, getConnection, hconn] at hfirst
  | some conn =>
    cases hshell : mapGet ssh.shellSessions (getConnectionKey h (p.getD 22) u) with
    | some existing =>
      by_cases hrdy : existing.ready = true
      · have hfirst2 := hfirst
        simp [getOrCreateShell, hjs, getConnection, hconn, hshell, hrdy] at hfirst2
        have hstate0 : (getOrCreateShell ssh (some h) p (some u) now1 created1).1
            = { ssh with
                connections := mapSet ssh.connections (getConnectionKey h (p.getD 22) u)
                  { conn with lastActivity := now1 },
                shellSessions := mapSet ssh.shellSessions (getConnectionKey h (p.getD 22) u)
                  ⟨existing.channelId, existing.buffer, true, existing.createdAt,
                    now1⟩ } := by
          simp [getOrCreateShell, hjs, getConnection, hconn, hshell, hrdy]
        rw [hfirst2.2.1] at hstate0
        rw [← hfirst2.1]
        exact hmain conn hconn hstate0 (by rw [← hfirst2.2.1])
      · cases hcr : created1 with
        | none =>
          exfalso
          simp [getOrCreateShell, hjs, getConnection, hconn, hshell, hrdy, hcr] at hfirst
        | some cb =>
          have hfirst2 := hfirst
          simp [getOrCreateShell, hjs, getConnection, hconn, hshell, hrdy, hcr] at hfirst2
          have hstate0 : (getOrCreateShell ssh (some h) p (some u) now1 created1).1
              = { ssh with
                  connections := mapSet ssh.connections (getConnectionKey h (p.getD 22) u)
                    { conn with lastActivity := now1 },
                  shellSessions := mapSet ssh.shellSessions
                    (getConnectionKey h (p.getD 22) u)
                    ⟨cb.1, cb.2, true, now1, now1⟩ } := by
            simp [getOrCreateShell, hjs, getConnection, hconn, hshell, hrdy, hcr]
          rw [hfirst2.2.1] at hstate0
          rw [← hfirst2.1, ← hcr]
          exact hmain conn hconn hstate0 (by rw [← hfirst2.2.1])
    | none =>
      cases hcr : created1 with
      | none =>
        exfalso
        simp [getOrCreateShell, hjs, getConnection, hconn, hshell, hcr] at hfirst
      | some cb =>
        have hfirst2 := hfirst
        simp [getOrCreateShell, hjs, getConnection, hconn, hshell, hcr] at hfirst2
        have hstate0 : (getOrCreateShell ssh (some h) p (some u) now1 created1).1
            = { ssh with
                connections := mapSet ssh.connections (getConnectionKey h (p.getD 22) u)
                  { conn with lastActivity := now1 },
                shellSessions := mapSet ssh.shellSessions
                  (getConnectionKey h (p.getD 22) u)
                  ⟨cb.1, cb.2, true, now1, now1⟩ } := by
          simp [getOrCreateShell, hjs, getConnection, hconn, hshell, hcr]
        rw [hfirst2.2.1] at hstate0
        rw [← hfirst2.1, ← hcr]
        exact hmain conn hconn hstate0 (by rw [← hfirst2.2.1])

/-- C9 witness: a concrete pool with one live connection; the first call
opens the channel, the second returns it unchanged apart from
lastActivity. -/
theorem shell_session_reused_witness :
    (getOrCreateShell (getOrCreateShell
        ⟨[("root@a:22", ⟨7, 0, 0, true, some 0, false⟩)], [], []⟩
        (some "a") (some 22) (some "root") 1 (some (9, "$ "))).1
        (some "a") (some 22) (some "root") 2 none).2
      = .ok ("root@a:22", ⟨9, "$ ", true, 1, 2⟩, false) ∧
    mapKeys (getOrCreateShell (getOrCreateShell
        ⟨[("root@a:22", ⟨7, 0, 0, true, some 0, false⟩)], [], []⟩
        (some "a") (some 22) (some "root") 1 (some (9, "$ "))).1
        (some "a") (some 22) (some "root") 2 none).1.shellSessions
      = mapKeys (getOrCreateShell
        ⟨[("root@a:22", ⟨7, 0, 0, true, some 0, false⟩)], [], []⟩
        (some "a") (some 22) (some "root") 1 (some (9, "$ "))).1.shellSessions :=
  shell_session_reused
    ⟨[("root@a:22", ⟨7, 0, 0, true, some 0, false⟩)], [], []⟩
    "a" "root" (some 22) 1 2 (some (9, "$ ")) none
    "root@a:22" ⟨9, "$ ", true, 1, 1⟩ true
    (by decide) (by decide) (by rfl)

/-- C1: whenever fewer than two sessions are live, validateTarget never
returns a switch confirmation: any result it returns has a null
confirmationResponse, whatever the operation, the parameters and the
previously recorded target. -/
theorem guard_bypassed_when_few_sessions
    (guard : TargetGuardState) (cm : ConfState)
    (store : List (String × ServerConfig)) (ssh : SSHManagerState)
    (operation : String) (p : ToolParams) (now : Nat) (freshToken : String)
    (hfew : ssh.connections.length ≤ 1) :
    ∀ r, (validateTarget guard cm store ssh operation p now freshToken).2 = .ok r →
      r.confirmationResponse = none := by
  intro r hr
  cases hres : resolveServer store p with
  | error e => simp [validateTarget, hres] at hr
  | ok resolved =>
    by_cases hh : resolved.host = ""
    · simp [validateTarget, hres, hh] at hr
      rw [← hr]
    · have hlen : (listConnections ssh).length ≤ 1 := by
        rw [listConnections_length]; exact hfew
      simp [validateTarget, hres, hh, hlen] at hr
      rw [← hr]

/-- C1 witness: one live session and a recorded different target — the
guard still waves the call through. -/
theorem guard_bypassed_when_few_sessions_witness :
    (validateTarget ⟨some "root@b:22", none⟩ ⟨[]⟩ []
        ⟨[("root@a:22", ⟨7, 0, 0, true, some 0, false⟩)], [], []⟩
        "exec" { command := some "ls", host := some "a", username := some "root" }
        0 "t1").2
      = .ok ⟨⟨"a", 22, "root"⟩, none⟩ ∧
    (⟨⟨"a", 22, "root"⟩, none⟩ : TargetValidationResult).confirmationResponse
      = none :=
  ⟨by rfl,
   guard_bypassed_when_few_sessions ⟨some "root@b:22", none⟩ ⟨[]⟩ []
     ⟨[("root@a:22", ⟨7, 0, 0, true, some 0, false⟩)], [], []⟩
     "exec" { command := some "ls", host := some "a", username := some "root" }
     0 "t1" (by decide) ⟨⟨"a", 22, "root"⟩, none⟩ (by rfl)⟩

theorem execBatch_get (command : String) (servers : List BatchServer)
    (runExec : String → BatchServer → Except String ExecResult)
    (i : Nat) (hi : i < servers.length)
    (hri : i < (execBatch command servers runExec).length) :
    (execBatch command servers runExec).get ⟨i, hri⟩
      = match runExec command (servers.get ⟨i, hi⟩) with
        | .ok result => ⟨(servers.get ⟨i, hi⟩).host, result.exitCode == 0,
            some result, none⟩
        | .error e => ⟨(servers.get ⟨i, hi⟩).host, false, none, some e⟩ := by
  simp [execBatch, List.get_eq_getElem, List.getElem_map]

/-- C8: exec_batch never consults TargetGuard and runs the classifier
exactly once on the shared command; when the command is safe it returns one
result per server, in order, never throwing for an individual target: a
target whose round trip fails yields success=false with the error message,
and every entry depends only on its own server's outcome. -/
theorem exec_batch_bypasses_guard_and_isolates
    (st : GatewayState) (detect : String → Option String)
    (runExec : String → BatchServer → Except String ExecResult)
    (command : String) (servers : List BatchServer) (p : ToolParams)
    (now : Nat) (freshToken : String) :
    ((execBatchTool st detect runExec command servers p now freshToken).2.1.count
        .classifyDanger = 1) ∧
    ((execBatchTool st detect runExec command servers p now freshToken).2.1.count
        .guardValidate = 0) ∧
    (detect command = none →
      (execBatchTool st detect runExec command servers p now freshToken).2.2
        = .ok (.results (execBatch command servers runExec))) ∧
    ((execBatch command servers runExec).length = servers.length) ∧
    (∀ (i : Nat) (hi : i < servers.length)
        (hri : i < (execBatch command servers runExec).length),
      (∀ e, runExec command (servers.get ⟨i, hi⟩) = .error e →
        (execBatch command servers runExec).get ⟨i, hri⟩
          = ⟨(servers.get ⟨i, hi⟩).host, false, none, some e⟩) ∧
      (∀ r, runExec command (servers.get ⟨i, hi⟩) = .ok r →
        (execBatch command servers runExec).get ⟨i, hri⟩
          = ⟨(servers.get ⟨i, hi⟩).host, r.exitCode == 0, some r, none⟩)) := by
  refine ⟨?_, ?_, ?_, ?_, ?_⟩
  · rcases hh : handleDangerousCommand st.cm (detect command) "exec_batch" p
        "dangerous batch command detected" now freshToken with ⟨cm2, res⟩
    cases res with
    | error e => simp [execBatchTool, hh]
    | ok o =>
      cases o with
      | none => simp [execBatchTool, hh]
      | some c => simp [execBatchTool, hh]
  · rcases hh : handleDangerousCommand st.cm (detect command) "exec_batch" p
        "dangerous batch command detected" now freshToken with ⟨cm2, res⟩
    cases res with
    | error e => simp [execBatchTool, hh]
    | ok o =>
      cases o with
      | none => simp [execBatchTool, hh]
      | some c => simp [execBatchTool, hh]
  · intro hsafe
    simp [execBatchTool, hsafe, handleDangerousCommand]
  · simp [execBatch]
  · intro i hi hri
    constructor
    · intro e he
      rw [execBatch_get command servers runExec i hi hri, he]
    · intro r hrr
      rw [execBatch_get command servers runExec i hi hri, hrr]

/-- C8 witness: three targets, the middle one unreachable — three results
in order, the failure isolated. -/
theorem exec_batch_bypasses_guard_and_isolates_witness :
    ((execBatchTool ⟨⟨[], [], []⟩, ⟨none, none⟩, ⟨[]⟩⟩ (fun _ => none)
        (fun _ s => if s.host = "b" then .error "unreachable"
          else .ok ⟨"up", "", 0, 5, none⟩)
        "uptime" [⟨"a", none, "root"⟩, ⟨"b", none, "root"⟩, ⟨"c", none, "root"⟩]
        {} 0 "t1").2.1.count .classifyDanger = 1) ∧
    ((execBatchTool ⟨⟨[], [], []⟩, ⟨none, none⟩, ⟨[]⟩⟩ (fun _ => none)
        (fun _ s => if s.host = "b" then .error "unreachable"
          else .ok ⟨"up", "", 0, 5, none⟩)
        "uptime" [⟨"a", none, "root"⟩, ⟨"b", none, "root"⟩, ⟨"c", none, "root"⟩]
        {} 0 "t1").2.1.count .guardValidate = 0) ∧
    ((execBatchTool ⟨⟨[], [], []⟩, ⟨none, none⟩, ⟨[]⟩⟩ (fun _ => none)
        (fun _ s => if s.host = "b" then .error "unreachable"
          else .ok ⟨"up", "", 0, 5, none⟩)
        "uptime" [⟨"a", none, "root"⟩, ⟨"b", none, "root"⟩, ⟨"c", none, "root"⟩]
        {} 0 "t1").2.2
      = .ok (.results (execBatch "uptime"
          [⟨"a", none, "root"⟩, ⟨"b", none, "root"⟩, ⟨"c", none, "root"⟩]
          (fun _ s => if s.host = "b" then .error "unreachable"
            else .ok ⟨"up", "", 0, 5, none⟩)))) ∧
    ((execBatch "uptime"
        [⟨"a", none, "root"⟩, ⟨"b", none, "root"⟩, ⟨"c", none, "root"⟩]
        (fun _ s => if s.host = "b" then .error "unreachable"
          else .ok ⟨"up", "", 0, 5, none⟩)).length = 3) ∧
    ((execBatch "uptime"
        [⟨"a", none, "root"⟩, ⟨"b", none, "root"⟩, ⟨"c", none, "root"⟩]
        (fun _ s => if s.host = "b" then .error "unreachable"
          else .ok ⟨"up", "", 0, 5, none⟩)).get ⟨1, by decide⟩
      = ⟨"b", false, none, some "unreachable"⟩) := by
  have T := exec_batch_bypasses_guard_and_isolates
    ⟨⟨[], [], []⟩, ⟨none, none⟩, ⟨[]⟩⟩ (fun _ => none)
    (fun _ s => if s.host = "b" then .error "unreachable"
      else .ok ⟨"up", "", 0, 5, none⟩)
    "uptime" [⟨"a", none, "root"⟩, ⟨"b", none, "root"⟩, ⟨"c", none, "root"⟩]
    {} 0 "t1"
  refine ⟨T.1, T.2.1, T.2.2.1 rfl, T.2.2.2.1, ?_⟩
  exact (T.2.2.2.2 1 (by decide) (by decide)).1 "unreachable" (by rfl)

theorem validateTarget_switch_mints (guard : TargetGuardState) (cm : ConfState)
    (store : List (String × ServerConfig)) (ssh : SSHManagerState)
    (operation : String) (p : ToolParams) (now : Nat) (freshToken : String)
    (r : TargetValidationResult) (resp : TargetSwitchResponse)
    (h : (validateTarget guard cm store ssh operation p now freshToken).2 = .ok r)
    (hresp : r.confirmationResponse = some resp) :
    resp.targetConfirmationToken = freshToken ∧
    resp.expiresAt = now + TOKEN_EXPIRY_MS := by
  cases hres : resolveServer store p with
  | error e => simp [validateTarget, hres] at h
  | ok resolved =>
    by_cases hh : resolved.host = ""
    · simp [validateTarget, hres, hh] at h
      rw [← h] at hresp; simp at hresp
    · by_cases hlen : (listConnections ssh).length ≤ 1
      · simp [validateTarget, hres, hh, hlen] at h
        rw [← h] at hresp; simp at hresp
      · cases hlast : guard.lastTargetKey with
        | none =>
          simp [validateTarget, hres, hh, hlen, hlast] at h
          rw [← h] at hresp; simp at hresp
        | some lastKey =>
          by_cases hsame :
              lastKey = getConnectionKey resolved.host resolved.port resolved.username
          · simp [validateTarget, hres, hh, hlen, hlast, hsame] at h
            rw [← h] at hresp; simp at hresp
          · by_cases htok : jsTruthy p.targetConfirmationToken
            · by_cases hvalid : (verifyToken cm (p.targetConfirmationToken.getD "")
                  ("target_switch:" ++ operation) (buildTokenParams operation p)
                  now).2.valid
              · simp [validateTarget, hres, hh, hlen, hlast, hsame, htok, hvalid] at h
                rw [← h] at hresp; simp at hresp
              · simp [validateTarget, hres, hh, hlen, hlast, hsame, htok, hvalid] at h
            · cases hid : (getServerIdentity ssh (some resolved.host)
                  (some resolved.port) (some resolved.username) now).2 with
              | error e =>
                simp [validateTarget, hres, hh, hlen, hlast, hsame, htok, hid] at h
              | ok toIdentity =>
                simp [validateTarget, hres, hh, hlen, hlast, hsame, htok, hid,
                  generateToken] at h
                rw [← h] at hresp
                simp at hresp
                subst hresp
                exact ⟨rfl, rfl⟩

theorem execTool_switch_shortcircuit (st : GatewayState)
    (store : List (String × ServerConfig)) (detect : String → Option String)
    (runExec : ToolParams → Except String ExecResult) (p : ToolParams)
    (now : Nat) (freshToken : String)
    (tvr : TargetValidationResult) (resp : TargetSwitchResponse)
    (hv : (validateTarget st.guard st.cm store st.ssh "exec" p now freshToken).2
      = .ok tvr)
    (hresp : tvr.confirmationResponse = some resp) :
    (execTool st store detect runExec p now freshToken).2.2
      = .ok (.switchRequired resp) ∧
    (execTool st store detect runExec p now freshToken).2.1 = [.guardValidate] := by
  constructor <;> simp [execTool, hv, hresp]

theorem execSudoTool_switch_shortcircuit (st : GatewayState)
    (store : List (String × ServerConfig)) (detect : String → Option String)
    (runExec : ToolParams → Except String ExecResult) (p : ToolParams)
    (now : Nat) (freshToken : String)
    (tvr : TargetValidationResult) (resp : TargetSwitchResponse)
    (hv : (validateTarget st.guard st.cm store st.ssh "exec_sudo" p now freshToken).2
      = .ok tvr)
    (hresp : tvr.confirmationResponse = some resp) :
    (execSudoTool st store detect runExec p now freshToken).2.2
      = .ok (.switchRequired resp) ∧
    (execSudoTool st store detect runExec p now freshToken).2.1 = [.guardValidate] := by
  constructor <;> simp [execSudoTool, hv, hresp]

theorem execShellTool_switch_shortcircuit (st : GatewayState)
    (store : List (String × ServerConfig)) (detect : String → Option String)
    (runExec : ToolParams → Except String ExecResult) (p : ToolParams)
    (now : Nat) (freshToken : String)
    (tvr : TargetValidationResult) (resp : TargetSwitchResponse)
    (hv : (validateTarget st.guard st.cm store st.ssh "exec_shell" p now freshToken).2
      = .ok tvr)
    (hresp : tvr.confirmationResponse = some resp) :
    (execShellTool st store detect runExec p now freshToken).2.2
      = .ok (.switchRequired resp) ∧
    (execShellTool st store detect runExec p now freshToken).2.1 = [.guardValidate] := by
  constructor <;> simp [execShellTool, hv, hresp]

theorem shellSendTool_switch_shortcircuit (st : GatewayState)
    (store : List (String × ServerConfig)) (detect : String → Option String)
    (runSend : ToolParams → Except String (String × Bool)) (p : ToolParams)
    (now : Nat) (freshToken : String)
    (tvr : TargetValidationResult) (resp : TargetSwitchResponse)
    (hv : (validateTarget st.guard st.cm store st.ssh "shell_send" p now freshToken).2
      = .ok tvr)
    (hresp : tvr.confirmationResponse = some resp) :
    (shellSendTool st store detect runSend p now freshToken).2.2
      = .ok (.switchRequired resp) ∧
    (shellSendTool st store detect runSend p now freshToken).2.1 = [.guardValidate] := by
  constructor <;> simp [shellSendTool, hv, hresp]

theorem execTool_danger_checked (st : GatewayState)
    (store : List (String × ServerConfig)) (detect : String → Option String)
    (runExec : ToolParams → Except String ExecResult) (p : ToolParams)
    (now : Nat) (freshToken : String)
    (tvr : TargetValidationResult) (sid : ServerIdentity)
    (hv : (validateTarget st.guard st.cm store st.ssh "exec" p now freshToken).2
      = .ok tvr)
    (hnone : tvr.confirmationResponse = none)
    (hid : (getServerIdentity st.ssh (overrideTarget p tvr.resolved).host
        (overrideTarget p tvr.resolved).port
        (overrideTarget p tvr.resolved).username now).2 = .ok sid) :
    ExecEvent.classifyDanger ∈ (execTool st store detect runExec p now freshToken).2.1 := by
  rcases hh : handleDangerousCommand
      (validateTarget st.guard st.cm store st.ssh "exec" p now freshToken).1
      (detect ((overrideTarget p tvr.resolved).command.getD "")) "exec"
      (overrideTarget p tvr.resolved) "dangerous command detected" now freshToken
    with ⟨cm2, res⟩
  cases res with
  | error e => simp [execTool, hv, hnone, hid, hh]
  | ok o =>
    cases o with
    | some c => simp [execTool, hv, hnone, hid, hh]
    | none =>
      cases hrun : runExec (overrideTarget p tvr.resolved) with
      | error e => simp [execTool, hv, hnone, hid, hh, hrun]
      | ok result => simp [execTool, hv, hnone, hid, hh, hrun]

theorem execSudoTool_danger_checked (st : GatewayState)
    (store : List (String × ServerConfig)) (detect : String → Option String)
    (runExec : ToolParams → Except String ExecResult) (p : ToolParams)
    (now : Nat) (freshToken : String)
    (tvr : TargetValidationResult) (sid : ServerIdentity)
    (hv : (validateTarget st.guard st.cm store st.ssh "exec_sudo" p now freshToken).2
      = .ok tvr)
    (hnone : tvr.confirmationResponse = none)
    (hid : (getServerIdentity st.ssh (overrideTarget p tvr.resolved).host
        (overrideTarget p tvr.resolved).port
        (overrideTarget p tvr.resolved).username now).2 = .ok sid) :
    ExecEvent.classifyDanger
      ∈ (execSudoTool st store detect runExec p now freshToken).2.1 := by
  rcases hh : handleDangerousCommand
      (validateTarget st.guard st.cm store st.ssh "exec_sudo" p now freshToken).1
      (detect ((overrideTarget p tvr.resolved).command.getD "")) "exec_sudo"
      (overrideTarget p tvr.resolved) "dangerous sudo command detected" now freshToken
    with ⟨cm2, res⟩
  cases res with
  | error e => simp [execSudoTool, hv, hnone, hid, hh]
  | ok o =>
    cases o with
    | some c => simp [execSudoTool, hv, hnone, hid, hh]
    | none =>
      cases hrun : runExec (overrideTarget p tvr.resolved) with
      | error e => simp [execSudoTool, hv, hnone, hid, hh, hrun]
      | ok result => simp [execSudoTool, hv, hnone, hid, hh, hrun]

theorem execShellTool_danger_checked (st : GatewayState)
    (store : List (String × ServerConfig)) (detect : String → Option String)
    (runExec : ToolParams → Except String ExecResult) (p : ToolParams)
    (now : Nat) (freshToken : String)
    (tvr : TargetValidationResult) (sid : ServerIdentity)
    (hv : (validateTarget st.guard st.cm store st.ssh "exec_shell" p now freshToken).2
      = .ok tvr)
    (hnone : tvr.confirmationResponse = none)
    (hid : (getServerIdentity st.ssh (overrideTarget p tvr.resolved).host
        (overrideTarget p tvr.resolved).port
        (overrideTarget p tvr.resolved).username now).2 = .ok sid) :
    ExecEvent.classifyDanger
      ∈ (execShellTool st store detect runExec p now freshToken).2.1 := by
  rcases hh : handleDangerousCommand
      (validateTarget st.guard st.cm store st.ssh "exec_shell" p now freshToken).1
      (detect ((overrideTarget p tvr.resolved).command.getD "")) "exec_shell"
      (overrideTarget p tvr.resolved) "dangerous command detected" now freshToken
    with ⟨cm2, res⟩
  cases res with
  | error e => simp [execShellTool, hv, hnone, hid, hh]
  | ok o =>
    cases o with
    | some c => simp [execShellTool, hv, hnone, hid, hh]
    | none =>
      cases hrun : runExec (overrideTarget p tvr.resolved) with
      | error e => simp [execShellTool, hv, hnone, hid, hh, hrun]
      | ok result => simp [execShellTool, hv, hnone, hid, hh, hrun]

theorem shellSendTool_danger_checked (st : GatewayState)
    (store : List (String × ServerConfig)) (detect : String → Option String)
    (runSend : ToolParams → Except String (String × Bool)) (p : ToolParams)
    (now : Nat) (freshToken : String)
    (tvr : TargetValidationResult)
    (hv : (validateTarget st.guard st.cm store st.ssh "shell_send" p now freshToken).2
      = .ok tvr)
    (hnone : tvr.confirmationResponse = none) :
    ExecEvent.classifyDanger
      ∈ (shellSendTool st store detect runSend p now freshToken).2.1 := by
  cases hdet : detect ((overrideTarget p tvr.resolved).input.getD "") with
  | none =>
    cases hrun : runSend (overrideTarget p tvr.resolved) with
    | error e => simp [shellSendTool, hv, hnone, hdet, hrun]
    | ok out => simp [shellSendTool, hv, hnone, hdet, hrun]
  | some d =>
    cases hid : (getServerIdentity st.ssh (overrideTarget p tvr.resolved).host
        (overrideTarget p tvr.resolved).port
        (overrideTarget p tvr.resolved).username now).2 with
    | error e => simp [shellSendTool, hv, hnone, hdet, hid]
    | ok sid =>
      rcases hh : handleDangerousCommand
          (validateTarget st.guard st.cm store st.ssh "shell_send" p now freshToken).1
          (some d) "shell_send" (overrideTarget p tvr.resolved)
          "dangerous input detected" now freshToken
        with ⟨cm2, res⟩
      cases res with
      | error e => simp [shellSendTool, hv, hnone, hdet, hid, hh]
      | ok o =>
        cases o with
        | some c => simp [shellSendTool, hv, hnone, hdet, hid, hh]
        | none =>
          cases hrun : runSend (overrideTarget p tvr.resolved) with
          | error e => simp [shellSendTool, hv, hnone, hdet, hid, hh, hrun]
          | ok out => simp [shellSendTool, hv, hnone, hdet, hid, hh, hrun]

/-- C3: in every exec-style tool (exec, exec_sudo, exec_shell, shell_send)
the target check runs first: while the switch is unconfirmed the call
returns the target-switch response — whose token is the freshly minted one
with its 5-minute expiry — and its event trace is exactly the guard
validation, so the dangerous-command classifier has not run and the command
has not executed; once the guard lets a call through (in particular when
the switch token has been supplied and verified), the classifier does
run. -/
theorem switch_resolved_before_danger
    (st : GatewayState) (store : List (String × ServerConfig))
    (detect : String → Option String)
    (runExec : ToolParams → Except String ExecResult)
    (runSend : ToolParams → Except String (String × Bool))
    (p : ToolParams) (now : Nat) (freshToken : String) :
    (∀ operation r resp,
      (validateTarget st.guard st.cm store st.ssh operation p now freshToken).2
        = .ok r →
      r.confirmationResponse = some resp →
      resp.targetConfirmationToken = freshToken ∧
      resp.expiresAt = now + TOKEN_EXPIRY_MS) ∧
    (∀ tvr resp,
      (validateTarget st.guard st.cm store st.ssh "exec" p now freshToken).2
        = .ok tvr →
      tvr.confirmationResponse = some resp →
      (execTool st store detect runExec p now freshToken).2.2
        = .ok (.switchRequired resp) ∧
      (execTool st store detect runExec p now freshToken).2.1 = [.guardValidate]) ∧
    (∀ tvr resp,
      (validateTarget st.guard st.cm store st.ssh "exec_sudo" p now freshToken).2
        = .ok tvr →
      tvr.confirmationResponse = some resp →
      (execSudoTool st store detect runExec p now freshToken).2.2
        = .ok (.switchRequired resp) ∧
      (execSudoTool st store detect runExec p now freshToken).2.1 = [.guardValidate]) ∧
    (∀ tvr resp,
      (validateTarget st.guard st.cm store st.ssh "exec_shell" p now freshToken).2
        = .ok tvr →
      tvr.confirmationResponse = some resp →
      (execShellTool st store detect runExec p now freshToken).2.2
        = .ok (.switchRequired resp) ∧
      (execShellTool st store detect runExec p now freshToken).2.1 = [.guardValidate]) ∧
    (∀ tvr resp,
      (validateTarget st.guard st.cm store st.ssh "shell_send" p now freshToken).2
        = .ok tvr →
      tvr.confirmationResponse = some resp →
      (shellSendTool st store detect runSend p now freshToken).2.2
        = .ok (.switchRequired resp) ∧
      (shellSendTool st store detect runSend p now freshToken).2.1
        = [.guardValidate]) ∧
    (∀ tvr sid,
      (validateTarget st.guard st.cm store st.ssh "exec" p now freshToken).2
        = .ok tvr →
      tvr.confirmationResponse = none →
      (getServerIdentity st.ssh (overrideTarget p tvr.resolved).host
        (overrideTarget p tvr.resolved).port
        (overrideTarget p tvr.resolved).username now).2 = .ok sid →
      ExecEvent.classifyDanger
        ∈ (execTool st store detect runExec p now freshToken).2.1) ∧
    (∀ tvr sid,
      (validateTarget st.guard st.cm store st.ssh "exec_sudo" p now freshToken).2
        = .ok tvr →
      tvr.confirmationResponse = none →
      (getServerIdentity st.ssh (overrideTarget p tvr.resolved).host
        (overrideTarget p tvr.resolved).port
        (overrideTarget p tvr.resolved).username now).2 = .ok sid →
      ExecEvent.classifyDanger
        ∈ (execSudoTool st store detect runExec p now freshToken).2.1) ∧
    (∀ tvr sid,
      (validateTarget st.guard st.cm store st.ssh "exec_shell" p now freshToken).2
        = .ok tvr →
      tvr.confirmationResponse = none →
      (getServerIdentity st.ssh (overrideTarget p tvr.resolved).host
        (overrideTarget p tvr.resolved).port
        (overrideTarget p tvr.resolved).username now).2 = .ok sid →
      ExecEvent.classifyDanger
        ∈ (execShellTool st store detect runExec p now freshToken).2.1) ∧
    (∀ tvr,
      (validateTarget st.guard st.cm store st.ssh "shell_send" p now freshToken).2
        = .ok tvr →
      tvr.confirmationResponse = none →
      ExecEvent.classifyDanger
        ∈ (shellSendTool st store detect runSend p now freshToken).2.1) :=
  ⟨fun operation r resp hv hresp =>
      validateTarget_switch_mints st.guard st.cm store st.ssh operation p now
        freshToken r resp hv hresp,
   fun tvr resp hv hresp =>
      execTool_switch_shortcircuit st store detect runExec p now freshToken
        tvr resp hv hresp,
   fun tvr resp hv hresp =>
      execSudoTool_switch_shortcircuit st store detect runExec p now freshToken
        tvr resp hv hresp,
   fun tvr resp hv hresp =>
      execShellTool_switch_shortcircuit st store detect runExec p now freshToken
        tvr resp hv hresp,
   fun tvr resp hv hresp =>
      shellSendTool_switch_shortcircuit st store detect runSend p now freshToken
        tvr resp hv hresp,
   fun tvr sid hv hnone hid =>
      execTool_danger_checked st store detect runExec p now freshToken
        tvr sid hv hnone hid,
   fun tvr sid hv hnone hid =>
      execSudoTool_danger_checked st store detect runExec p now freshToken
        tvr sid hv hnone hid,
   fun tvr sid hv hnone hid =>
      execShellTool_danger_checked st store detect runExec p now freshToken
        tvr sid hv hnone hid,
   fun tvr hv hnone =>
      shellSendTool_danger_checked st store detect runSend p now freshToken
        tvr hv hnone⟩

set_option maxRecDepth 8000 in
/-- C3 witness: a two-session pool with a recorded target B and a call
aimed at A.  Without the token every tool returns the switch response with
the fresh token and its expiry, after only the guard event; re-calling with
the minted token passes the guard and the classifier event occurs. -/
theorem switch_resolved_before_danger_witness :
    ((⟨"t1", 300000, ⟨"b", 22, "root", none, none⟩, ⟨"a", 22, "root", none, none⟩, "server switch detected: root@b:22 -> root@a:22"⟩ : TargetSwitchResponse).targetConfirmationToken = "t1" ∧
     (⟨"t1", 300000, ⟨"b", 22, "root", none, none⟩, ⟨"a", 22, "root", none, none⟩, "server switch detected: root@b:22 -> root@a:22"⟩ : TargetSwitchResponse).expiresAt = 0 + TOKEN_EXPIRY_MS) ∧
    ((execTool ⟨⟨[("root@a:22", ⟨7, 0, 0, true, some 0, false⟩), ("root@b:22", ⟨8, 0, 1, true, some 0, false⟩)], [], []⟩, ⟨some "root@b:22", some ⟨"b", 22, "root", none, none⟩⟩, ⟨[]⟩⟩ [] (fun _ => (none : Option String)) (fun _ => (Except.error "nope" : Except String ExecResult)) ({ command := some "ls", input := some "ls", host := some "a", username := some "root" } : ToolParams) 0 "t1").2.2
        = .ok (.switchRequired (⟨"t1", 300000, ⟨"b", 22, "root", none, none⟩, ⟨"a", 22, "root", none, none⟩, "server switch detected: root@b:22 -> root@a:22"⟩ : TargetSwitchResponse)) ∧
     (execTool ⟨⟨[("root@a:22", ⟨7, 0, 0, true, some 0, false⟩), ("root@b:22", ⟨8, 0, 1, true, some 0, false⟩)], [], []⟩, ⟨some "root@b:22", some ⟨"b", 22, "root", none, none⟩⟩, ⟨[]⟩⟩ [] (fun _ => (none : Option String)) (fun _ => (Except.error "nope" : Except String ExecResult)) ({ command := some "ls", input := some "ls", host := some "a", username := some "root" } : ToolParams) 0 "t1").2.1 = [.guardValidate]) ∧
    ((execSudoTool ⟨⟨[("root@a:22", ⟨7, 0, 0, true, some 0, false⟩), ("root@b:22", ⟨8, 0, 1, true, some 0, false⟩)], [], []⟩, ⟨some "root@b:22", some ⟨"b", 22, "root", none, none⟩⟩, ⟨[]⟩⟩ [] (fun _ => (none : Option String)) (fun _ => (Except.error "nope" : Except String ExecResult)) ({ command := some "ls", input := some "ls", host := some "a", username := some "root" } : ToolParams) 0 "t1").2.2
        = .ok (.switchRequired (⟨"t1", 300000, ⟨"b", 22, "root", none, none⟩, ⟨"a", 22, "root", none, none⟩, "server switch detected: root@b:22 -> root@a:22"⟩ : TargetSwitchResponse)) ∧
     (execSudoTool ⟨⟨[("root@a:22", ⟨7, 0, 0, true, some 0, false⟩), ("root@b:22", ⟨8, 0, 1, true, some 0, false⟩)], [], []⟩, ⟨some "root@b:22", some ⟨"b", 22, "root", none, none⟩⟩, ⟨[]⟩⟩ [] (fun _ => (none : Option String)) (fun _ => (Except.error "nope" : Except String ExecResult)) ({ command := some "ls", input := some "ls", host := some "a", username := some "root" } : ToolParams) 0 "t1").2.1 = [.guardValidate]) ∧
    ((execShellTool ⟨⟨[("root@a:22", ⟨7, 0, 0, true, some 0, false⟩), ("root@b:22", ⟨8, 0, 1, true, some 0, false⟩)], [], []⟩, ⟨some "root@b:22", some ⟨"b", 22, "root", none, none⟩⟩, ⟨[]⟩⟩ [] (fun _ => (none : Option String)) (fun _ => (Except.error "nope" : Except String ExecResult)) ({ command := some "ls", input := some "ls", host := some "a", username := some "root" } : ToolParams) 0 "t1").2.2
        = .ok (.switchRequired (⟨"t1", 300000, ⟨"b", 22, "root", none, none⟩, ⟨"a", 22, "root", none, none⟩, "server switch detected: root@b:22 -> root@a:22"⟩ : TargetSwitchResponse)) ∧
     (execShellTool ⟨⟨[("root@a:22", ⟨7, 0, 0, true, some 0, false⟩), ("root@b:22", ⟨8, 0, 1, true, some 0, false⟩)], [], []⟩, ⟨some "root@b:22", some ⟨"b", 22, "root", none, none⟩⟩, ⟨[]⟩⟩ [] (fun _ => (none : Option String)) (fun _ => (Except.error "nope" : Except String ExecResult)) ({ command := some "ls", input := some "ls", host := some "a", username := some "root" } : ToolParams) 0 "t1").2.1 = [.guardValidate]) ∧
    ((shellSendTool ⟨⟨[("root@a:22", ⟨7, 0, 0, true, some 0, false⟩), ("root@b:22", ⟨8, 0, 1, true, some 0, false⟩)], [], []⟩, ⟨some "root@b:22", some ⟨"b", 22, "root", none, none⟩⟩, ⟨[]⟩⟩ [] (fun _ => (none : Option String)) (fun _ => (Except.error "nope" : Except String (String × Bool))) ({ command := some "ls", input := some "ls", host := some "a", username := some "root" } : ToolParams) 0 "t1").2.2
        = .ok (.switchRequired (⟨"t1", 300000, ⟨"b", 22, "root", none, none⟩, ⟨"a", 22, "root", none, none⟩, "server switch detected: root@b:22 -> root@a:22"⟩ : TargetSwitchResponse)) ∧
     (shellSendTool ⟨⟨[("root@a:22", ⟨7, 0, 0, true, some 0, false⟩), ("root@b:22", ⟨8, 0, 1, true, some 0, false⟩)], [], []⟩, ⟨some "root@b:22", some ⟨"b", 22, "root", none, none⟩⟩, ⟨[]⟩⟩ [] (fun _ => (none : Option String)) (fun _ => (Except.error "nope" : Except String (String × Bool))) ({ command := some "ls", input := some "ls", host := some "a", username := some "root" } : ToolParams) 0 "t1").2.1 = [.guardValidate]) ∧
    (ExecEvent.classifyDanger
      ∈ (execTool ⟨⟨[("root@a:22", ⟨7, 0, 0, true, some 0, false⟩), ("root@b:22", ⟨8, 0, 1, true, some 0, false⟩)], [], []⟩, ⟨some "root@b:22", some ⟨"b", 22, "root", none, none⟩⟩, (validateTarget ⟨some "root@b:22", some ⟨"b", 22, "root", none, none⟩⟩ ⟨[]⟩ [] ⟨[("root@a:22", ⟨7, 0, 0, true, some 0, false⟩), ("root@b:22", ⟨8, 0, 1, true, some 0, false⟩)], [], []⟩ "exec" ({ command := some "ls", input := some "ls", host := some "a", username := some "root" } : ToolParams) 0 "t1").1⟩ [] (fun _ => (none : Option String)) (fun _ => (Except.error "nope" : Except String ExecResult)) ({ command := some "ls", input := some "ls", host := some "a", username := some "root", targetConfirmationToken := some "t1" } : ToolParams) 5 "t2").2.1) ∧
    (ExecEvent.classifyDanger
      ∈ (execSudoTool ⟨⟨[("root@a:22", ⟨7, 0, 0, true, some 0, false⟩), ("root@b:22", ⟨8, 0, 1, true, some 0, false⟩)], [], []⟩, ⟨some "root@b:22", some ⟨"b", 22, "root", none, none⟩⟩, (validateTarget ⟨some "root@b:22", some ⟨"b", 22, "root", none, none⟩⟩ ⟨[]⟩ [] ⟨[("root@a:22", ⟨7, 0, 0, true, some 0, false⟩), ("root@b:22", ⟨8, 0, 1, true, some 0, false⟩)], [], []⟩ "exec_sudo" ({ command := some "ls", input := some "ls", host := some "a", username := some "root" } : ToolParams) 0 "t1").1⟩ [] (fun _ => (none : Option String)) (fun _ => (Except.error "nope" : Except String ExecResult)) ({ command := some "ls", input := some "ls", host := some "a", username := some "root", targetConfirmationToken := some "t1" } : ToolParams) 5 "t2").2.1) ∧
    (ExecEvent.classifyDanger
      ∈ (execShellTool ⟨⟨[("root@a:22", ⟨7, 0, 0, true, some 0, false⟩), ("root@b:22", ⟨8, 0, 1, true, some 0, false⟩)], [], []⟩, ⟨some "root@b:22", some ⟨"b", 22, "root", none, none⟩⟩, (validateTarget ⟨some "root@b:22", some ⟨"b", 22, "root", none, none⟩⟩ ⟨[]⟩ [] ⟨[("root@a:22", ⟨7, 0, 0, true, some 0, false⟩), ("root@b:22", ⟨8, 0, 1, true, some 0, false⟩)], [], []⟩ "exec_shell" ({ command := some "ls", input := some "ls", host := some "a", username := some "root" } : ToolParams) 0 "t1").1⟩ [] (fun _ => (none : Option String)) (fun _ => (Except.error "nope" : Except String ExecResult)) ({ command := some "ls", input := some "ls", host := some "a", username := some "root", targetConfirmationToken := some "t1" } : ToolParams) 5 "t2").2.1) ∧
    (ExecEvent.classifyDanger
      ∈ (shellSendTool ⟨⟨[("root@a:22", ⟨7, 0, 0, true, some 0, false⟩), ("root@b:22", ⟨8, 0, 1, true, some 0, false⟩)], [], []⟩, ⟨some "root@b:22", some ⟨"b", 22, "root", none, none⟩⟩, (validateTarget ⟨some "root@b:22", some ⟨"b", 22, "root", none, none⟩⟩ ⟨[]⟩ [] ⟨[("root@a:22", ⟨7, 0, 0, true, some 0, false⟩), ("root@b:22", ⟨8, 0, 1, true, some 0, false⟩)], [], []⟩ "shell_send" ({ command := some "ls", input := some "ls", host := some "a", username := some "root" } : ToolParams) 0 "t1").1⟩ [] (fun _ => (none : Option String)) (fun _ => (Except.error "nope" : Except String (String × Bool))) ({ command := some "ls", input := some "ls", host := some "a", username := some "root", targetConfirmationToken := some "t1" } : ToolParams) 5 "t2").2.1) :=
  ⟨(switch_resolved_before_danger ⟨⟨[("root@a:22", ⟨7, 0, 0, true, some 0, false⟩), ("root@b:22", ⟨8, 0, 1, true, some 0, false⟩)], [], []⟩, ⟨some "root@b:22", some ⟨"b", 22, "root", none, none⟩⟩, ⟨[]⟩⟩ [] (fun _ => (none : Option String)) (fun _ => (Except.error "nope" : Except String ExecResult)) (fun _ => (Except.error "nope" : Except String (String × Bool))) ({ command := some "ls", input := some "ls", host := some "a", username := some "root" } : ToolParams) 0 "t1").1
      "exec" ⟨⟨"a", 22, "root"⟩, some (⟨"t1", 300000, ⟨"b", 22, "root", none, none⟩, ⟨"a", 22, "root", none, none⟩, "server switch detected: root@b:22 -> root@a:22"⟩ : TargetSwitchResponse)⟩ (⟨"t1", 300000, ⟨"b", 22, "root", none, none⟩, ⟨"a", 22, "root", none, none⟩, "server switch detected: root@b:22 -> root@a:22"⟩ : TargetSwitchResponse) (by rfl) (by rfl),
   (switch_resolved_before_danger ⟨⟨[("root@a:22", ⟨7, 0, 0, true, some 0, false⟩), ("root@b:22", ⟨8, 0, 1, true, some 0, false⟩)], [], []⟩, ⟨some "root@b:22", some ⟨"b", 22, "root", none, none⟩⟩, ⟨[]⟩⟩ [] (fun _ => (none : Option String)) (fun _ => (Except.error "nope" : Except String ExecResult)) (fun _ => (Except.error "nope" : Except String (String × Bool))) ({ command := some "ls", input := some "ls", host := some "a", username := some "root" } : ToolParams) 0 "t1").2.1
      ⟨⟨"a", 22, "root"⟩, some (⟨"t1", 300000, ⟨"b", 22, "root", none, none⟩, ⟨"a", 22, "root", none, none⟩, "server switch detected: root@b:22 -> root@a:22"⟩ : TargetSwitchResponse)⟩ (⟨"t1", 300000, ⟨"b", 22, "root", none, none⟩, ⟨"a", 22, "root", none, none⟩, "server switch detected: root@b:22 -> root@a:22"⟩ : TargetSwitchResponse) (by rfl) (by rfl),
   (switch_resolved_before_danger ⟨⟨[("root@a:22", ⟨7, 0, 0, true, some 0, false⟩), ("root@b:22", ⟨8, 0, 1, true, some 0, false⟩)], [], []⟩, ⟨some "root@b:22", some ⟨"b", 22, "root", none, none⟩⟩, ⟨[]⟩⟩ [] (fun _ => (none : Option String)) (fun _ => (Except.error "nope" : Except String ExecResult)) (fun _ => (Except.error "nope" : Except String (String × Bool))) ({ command := some "ls", input := some "ls", host := some "a", username := some "root" } : ToolParams) 0 "t1").2.2.1
      ⟨⟨"a", 22, "root"⟩, some (⟨"t1", 300000, ⟨"b", 22, "root", none, none⟩, ⟨"a", 22, "root", none, none⟩, "server switch detected: root@b:22 -> root@a:22"⟩ : TargetSwitchResponse)⟩ (⟨"t1", 300000, ⟨"b", 22, "root", none, none⟩, ⟨"a", 22, "root", none, none⟩, "server switch detected: root@b:22 -> root@a:22"⟩ : TargetSwitchResponse) (by rfl) (by rfl),
   (switch_resolved_before_danger ⟨⟨[("root@a:22", ⟨7, 0, 0, true, some 0, false⟩), ("root@b:22", ⟨8, 0, 1, true, some 0, false⟩)], [], []⟩, ⟨some "root@b:22", some ⟨"b", 22, "root", none, none⟩⟩, ⟨[]⟩⟩ [] (fun _ => (none : Option String)) (fun _ => (Except.error "nope" : Except String ExecResult)) (fun _ => (Except.error "nope" : Except String (String × Bool))) ({ command := some "ls", input := some "ls", host := some "a", username := some "root" } : ToolParams) 0 "t1").2.2.2.1
      ⟨⟨"a", 22, "root"⟩, some (⟨"t1", 300000, ⟨"b", 22, "root", none, none⟩, ⟨"a", 22, "root", none, none⟩, "server switch detected: root@b:22 -> root@a:22"⟩ : TargetSwitchResponse)⟩ (⟨"t1", 300000, ⟨"b", 22, "root", none, none⟩, ⟨"a", 22, "root", none, none⟩, "server switch detected: root@b:22 -> root@a:22"⟩ : TargetSwitchResponse) (by rfl) (by rfl),
   (switch_resolved_before_danger ⟨⟨[("root@a:22", ⟨7, 0, 0, true, some 0, false⟩), ("root@b:22", ⟨8, 0, 1, true, some 0, false⟩)], [], []⟩, ⟨some "root@b:22", some ⟨"b", 22, "root", none, none⟩⟩, ⟨[]⟩⟩ [] (fun _ => (none : Option String)) (fun _ => (Except.error "nope" : Except String ExecResult)) (fun _ => (Except.error "nope" : Except String (String × Bool))) ({ command := some "ls", input := some "ls", host := some "a", username := some "root" } : ToolParams) 0 "t1").2.2.2.2.1
      ⟨⟨"a", 22, "root"⟩, some (⟨"t1", 300000, ⟨"b", 22, "root", none, none⟩, ⟨"a", 22, "root", none, none⟩, "server switch detected: root@b:22 -> root@a:22"⟩ : TargetSwitchResponse)⟩ (⟨"t1", 300000, ⟨"b", 22, "root", none, none⟩, ⟨"a", 22, "root", none, none⟩, "server switch detected: root@b:22 -> root@a:22"⟩ : TargetSwitchResponse) (by rfl) (by rfl),
   (switch_resolved_before_danger ⟨⟨[("root@a:22", ⟨7, 0, 0, true, some 0, false⟩), ("root@b:22", ⟨8, 0, 1, true, some 0, false⟩)], [], []⟩, ⟨some "root@b:22", some ⟨"b", 22, "root", none, none⟩⟩, (validateTarget ⟨some "root@b:22", some ⟨"b", 22, "root", none, none⟩⟩ ⟨[]⟩ [] ⟨[("root@a:22", ⟨7, 0, 0, true, some 0, false⟩), ("root@b:22", ⟨8, 0, 1, true, some 0, false⟩)], [], []⟩ "exec" ({ command := some "ls", input := some "ls", host := some "a", username := some "root" } : ToolParams) 0 "t1").1⟩ [] (fun _ => (none : Option String)) (fun _ => (Except.error "nope" : Except String ExecResult)) (fun _ => (Except.error "nope" : Except String (String × Bool))) ({ command := some "ls", input := some "ls", host := some "a", username := some "root", targetConfirmationToken := some "t1" } : ToolParams) 5
      "t2").2.2.2.2.2.1 (⟨⟨"a", 22, "root"⟩, none⟩ : TargetValidationResult) (⟨"a", 22, "root", none, none⟩ : ServerIdentity) (by rfl) (by rfl) (by rfl),
   (switch_resolved_before_danger ⟨⟨[("root@a:22", ⟨7, 0, 0, true, some 0, false⟩), ("root@b:22", ⟨8, 0, 1, true, some 0, false⟩)], [], []⟩, ⟨some "root@b:22", some ⟨"b", 22, "root", none, none⟩⟩, (validateTarget ⟨some "root@b:22", some ⟨"b", 22, "root", none, none⟩⟩ ⟨[]⟩ [] ⟨[("root@a:22", ⟨7, 0, 0, true, some 0, false⟩), ("root@b:22", ⟨8, 0, 1, true, some 0, false⟩)], [], []⟩ "exec_sudo" ({ command := some "ls", input := some "ls", host := some "a", username := some "root" } : ToolParams) 0 "t1").1⟩ [] (fun _ => (none : Option String)) (fun _ => (Except.error "nope" : Except String ExecResult)) (fun _ => (Except.error "nope" : Except String (String × Bool))) ({ command := some "ls", input := some "ls", host := some "a", username := some "root", targetConfirmationToken := some "t1" } : ToolParams) 5
      "t2").2.2.2.2.2.2.1 (⟨⟨"a", 22, "root"⟩, none⟩ : TargetValidationResult) (⟨"a", 22, "root", none, none⟩ : ServerIdentity) (by rfl) (by rfl) (by rfl),
   (switch_resolved_before_danger ⟨⟨[("root@a:22", ⟨7, 0, 0, true, some 0, false⟩), ("root@b:22", ⟨8, 0, 1, true, some 0, false⟩)], [], []⟩, ⟨some "root@b:22", some ⟨"b", 22, "root", none, none⟩⟩, (validateTarget ⟨some "root@b:22", some ⟨"b", 22, "root", none, none⟩⟩ ⟨[]⟩ [] ⟨[("root@a:22", ⟨7, 0, 0, true, some 0, false⟩), ("root@b:22", ⟨8, 0, 1, true, some 0, false⟩)], [], []⟩ "exec_shell" ({ command := some "ls", input := some "ls", host := some "a", username := some "root" } : ToolParams) 0 "t1").1⟩ [] (fun _ => (none : Option String)) (fun _ => (Except.error "nope" : Except String ExecResult)) (fun _ => (Except.error "nope" : Except String (String × Bool))) ({ command := some "ls", input := some "ls", host := some "a", username := some "root", targetConfirmationToken := some "t1" } : ToolParams) 5
      "t2").2.2.2.2.2.2.2.1 (⟨⟨"a", 22, "root"⟩, none⟩ : TargetValidationResult) (⟨"a", 22, "root", none, none⟩ : ServerIdentity) (by rfl) (by rfl) (by rfl),
   (switch_resolved_before_danger ⟨⟨[("root@a:22", ⟨7, 0, 0, true, some 0, false⟩), ("root@b:22", ⟨8, 0, 1, true, some 0, false⟩)], [], []⟩, ⟨some "root@b:22", some ⟨"b", 22, "root", none, none⟩⟩, (validateTarget ⟨some "root@b:22", some ⟨"b", 22, "root", none, none⟩⟩ ⟨[]⟩ [] ⟨[("root@a:22", ⟨7, 0, 0, true, some 0, false⟩), ("root@b:22", ⟨8, 0, 1, true, some 0, false⟩)], [], []⟩ "shell_send" ({ command := some "ls", input := some "ls", host := some "a", username := some "root" } : ToolParams) 0 "t1").1⟩ [] (fun _ => (none : Option String)) (fun _ => (Except.error "nope" : Except String ExecResult)) (fun _ => (Except.error "nope" : Except String (String × Bool))) ({ command := some "ls", input := some "ls", host := some "a", username := some "root", targetConfirmationToken := some "t1" } : ToolParams) 5
      "t2").2.2.2.2.2.2.2.2 (⟨⟨"a", 22, "root"⟩, none⟩ : TargetValidationResult) (by rfl) (by rfl)⟩

end SshMcp
